import Mathlib

/-!
Rule-based DNS query router (`router.go`).

A shallow embedding of `Router`, `Router.Resolve`, `Router.Add`, `stringToType`
and `stringToClass`, followed by the properties proved about them.

Conventions of the embedding:

* `uint16` codes are natural numbers; they are only ever compared for equality.
* The exported counters (`expvar.Int`, `expvar.Map`) are integers, respectively
  maps from keys to integers in which an absent key reads as `0`.  They are
  64-bit in the program; wrap-around after `2^63` increments is not modelled.
* A target resolver is an arbitrary component with effects of its own: it is a
  function on a world state `σ`, so that "the target was called once with this
  query" is the statement that result and world are those of one application.
  The router's own rules and counters are not part of that world: a target does
  not reach into the router that calls it.
* What the program takes from libraries (the compiled regular expression, the
  IP network, the DNS type table, the textual form of a question) is a parameter
  of the embedding, collected in `Lib`.  Properties that hold for every library
  are stated for every `Lib`; properties that depend on what a regular
  expression matches or a network contains are stated for `stdLib`, a model of
  the standard libraries on a sub-language.
* Logging is not modelled.
-/

namespace rdns

/-! ## Data model -/

/-- An error value.  The first four are built in `router.go`; `other` stands for
every error built elsewhere (by `regexp.Compile`, by `net.ParseCIDR`, by a target
resolver).  A target resolver may return any error value, router errors included:
a `Router` is itself a `Resolver`. -/
inductive Error where
  /-- Stands for `errors.New("no question in query")`. -/
  | InvalidQuery
  /-- Stands for `fmt.Errorf("no route for %s", question.String())`. -/
  | NoRoute (question : String)
  /-- Stands for `fmt.Errorf("unknown type '%s'", s)`. -/
  | UnknownType (s : String)
  /-- Stands for `fmt.Errorf("unknown class '%s'", s)`. -/
  | UnknownClass (s : String)
  /-- An error built outside `router.go`, with its message. -/
  | other (msg : String)
  deriving DecidableEq, Repr

/-- The message of an error value (Go's `Error()` method). -/
def Error.message : Error → String
  | .InvalidQuery => "no question in query"
  | .NoRoute question => "no route for " ++ question
  | .UnknownType s => "unknown type '" ++ s ++ "'"
  | .UnknownClass s => "unknown class '" ++ s ++ "'"
  | .other msg => msg

/-- An IP address (`net.IP`, a byte slice). -/
abbrev IP := List Nat

/-- A question of a DNS message (`dns.Question`). -/
structure Question where
  Name : String
  Qtype : Nat
  Qclass : Nat
  deriving DecidableEq, Repr

/-- A DNS message (`dns.Msg`): the header and the resource-record sections are
kept as uninterpreted data, the router only reads the question section. -/
structure Msg where
  MsgHdr : Nat
  Question : List Question
  Answer : List String
  Ns : List String
  Extra : List String
  deriving DecidableEq, Repr

/-- Modelled from the spec: the declaration of `ClientInfo` is not in the source;
the spec describes it as client metadata including the client's source address,
and `Resolve` reads its field `SourceIP`. -/
structure ClientInfo where
  SourceIP : IP
  deriving DecidableEq, Repr

/-- A compiled regular expression (`*regexp.Regexp`), seen through the two
methods the router uses: `String()`, the source text it was compiled from, and
`MatchString`. -/
structure Regexp where
  expr : String
  MatchString : String → Bool

/-- An IP network (`*net.IPNet`), seen through the method the router uses. -/
structure IPNet where
  Contains : IP → Bool

/-- The `Resolver` interface: `Resolve(q, ci)` returns a response (possibly nil)
and an error (possibly nil) and may change the world; `String()` is the display
name. -/
structure Resolver (σ : Type) where
  Resolve : Msg → ClientInfo → σ → (Option Msg × Option Error) × σ
  String : String

/-- The struct `route`. -/
structure route (σ : Type) where
  typ : Nat
  «class» : Nat
  name : Regexp
  source : Option IPNet
  resolver : Resolver σ

/-- The struct `RouterMetrics`. -/
structure RouterMetrics where
  route : String → Int
  failure : String → Int
  available : Int

/-- The struct `Router`. -/
structure Router (σ : Type) where
  id : String
  routes : List (route σ)
  metrics : RouterMetrics

/-- What `router.go` takes from libraries.  `TypeToString` is the DNS type table
`dns.TypeToString` in the order in which `range` happens to enumerate it. -/
structure Lib where
  TypeToString : List (Nat × String)
  regexpCompile : String → Except Error Regexp
  ParseCIDR : String → Except Error IPNet
  questionString : Question → String

/-- The process-wide registry of exported variables, as far as a router reads
it: the value currently registered under a path. -/
structure Registry where
  ints : String → String → String → Int
  maps : String → String → String → String → Int

/-! ## Metrics -/

/-- Modelled from the spec: `getVarInt` is not in the source; it hands out the
exported integer registered under `<base>.<id>.<name>`. -/
def getVarInt (reg : Registry) (base id name : String) : Int :=
  reg.ints base id name

/-- Modelled from the spec: `getVarMap` is not in the source; it hands out the
exported map registered under `<base>.<id>.<name>`. -/
def getVarMap (reg : Registry) (base id name : String) : String → Int :=
  reg.maps base id name

/-- The method `expvar.Map.Add(key, delta)`. -/
def mapAdd (m : String → Int) (key : String) (delta : Int) : String → Int :=
  fun k => if k = key then m k + delta else m k

/-- The function `NewRouterMetrics`: the gauge is fetched and then set to
`available`. -/
def NewRouterMetrics (reg : Registry) (id : String) (available : Int) : RouterMetrics :=
  let _avail := getVarInt reg "router" id "available"
  let avail := available
  { route := getVarMap reg "router" id "route"
    failure := getVarMap reg "router" id "failure"
    available := avail }

/-- The function `NewRouter`. -/
def NewRouter {σ : Type} (reg : Registry) (id : String) : Router σ :=
  { id := id
    routes := []
    metrics := NewRouterMetrics reg id 0 }

/-! ## Type and class mnemonics -/

/-- The loop of `stringToType` over the table: the first key whose mnemonic is
`s`, or the error. -/
def stringToType.scan (s : String) : List (Nat × String) → Except Error Nat
  | [] => .error (Error.UnknownType s)
  | (k, v) :: rest => if v = s then .ok k else stringToType.scan s rest

/-- The function `stringToType`, over the table in its enumeration order. -/
def stringToType (TypeToString : List (Nat × String)) (s : String) : Except Error Nat :=
  if s = "" then .ok 0 else stringToType.scan s TypeToString

/-- The function `stringToClass`. -/
def stringToClass (s : String) : Except Error Nat :=
  if s = "" then .ok 0
  else if s = "IN" then .ok 1
  else if s = "CH" then .ok 3
  else if s = "HS" then .ok 4
  else if s = "NONE" then .ok 254
  else if s = "ANY" then .ok 255
  else .error (Error.UnknownClass s)

/-! ## Add -/

/-- The method `Router.Add`: the error returned (if any) and the router
afterwards. -/
def Router.Add {σ : Type} (lib : Lib) (r : Router σ)
    (name «class» typ source : String) (resolver : Resolver σ) :
    Option Error × Router σ :=
  match stringToType lib.TypeToString typ with
  | .error err => (some err, r)
  | .ok t =>
    match stringToClass «class» with
    | .error err => (some err, r)
    | .ok c =>
      match lib.regexpCompile name with
      | .error err => (some err, r)
      | .ok re =>
        let parsed : Except Error (Option IPNet) :=
          if source ≠ "" then
            match lib.ParseCIDR source with
            | .error err => .error err
            | .ok sNet => .ok (some sNet)
          else .ok none
        match parsed with
        | .error err => (some err, r)
        | .ok sNet =>
          let newRoute : route σ :=
            { typ := t, «class» := c, name := re, source := sNet, resolver := resolver }
          (none,
            { r with
              routes := r.routes ++ [newRoute]
              metrics := { r.metrics with available := r.metrics.available + 1 } })

/-! ## Resolve -/

/-- What a call of `Resolve` leaves behind: the returned pair, the router (its
metrics may have changed) and the world. -/
structure Outcome (σ : Type) where
  a : Option Msg
  err : Option Error
  router : Router σ
  world : σ

/-- The body of `Resolve` from the point where a route has passed the four
tests: count the route, call the target, count a failure, return what the target
returned. -/
def Router.dispatch {σ : Type} (r : Router σ) (rt : route σ)
    (q : Msg) (ci : ClientInfo) (w : σ) : Outcome σ :=
  let m1 : RouterMetrics := { r.metrics with route := mapAdd r.metrics.route rt.resolver.String 1 }
  let res := rt.resolver.Resolve q ci w
  let m2 : RouterMetrics :=
    match res.1.2 with
    | some _ => { m1 with failure := mapAdd m1.failure rt.resolver.String 1 }
    | none => m1
  { a := res.1.1, err := res.1.2, router := { r with metrics := m2 }, world := res.2 }

/-- The loop of `Resolve` over the routes still to be tried. -/
def Router.resolveLoop {σ : Type} (lib : Lib) (r : Router σ) (q : Msg) (question : Question)
    (ci : ClientInfo) (w : σ) : List (route σ) → Outcome σ
  | [] =>
    { a := none, err := some (Error.NoRoute (lib.questionString question)),
      router := r, world := w }
  | rt :: rest =>
    if rt.typ != 0 && rt.typ != question.Qtype then
      Router.resolveLoop lib r q question ci w rest
    else if rt.«class» != 0 && rt.«class» != question.Qclass then
      Router.resolveLoop lib r q question ci w rest
    else if !rt.name.MatchString question.Name then
      Router.resolveLoop lib r q question ci w rest
    else if (match rt.source with
        | some sNet => !sNet.Contains ci.SourceIP
        | none => false) then
      Router.resolveLoop lib r q question ci w rest
    else
      Router.dispatch r rt q ci w

/-- The method `Router.Resolve`. -/
def Router.Resolve {σ : Type} (lib : Lib) (r : Router σ) (q : Msg) (ci : ClientInfo) (w : σ) :
    Outcome σ :=
  match q.Question with
  | [] => { a := none, err := some Error.InvalidQuery, router := r, world := w }
  | question :: _ => Router.resolveLoop lib r q question ci w r.routes

/-! ## The specification's notion of a satisfied rule -/

/-- A rule is satisfied by a question and a client, in the words of the
specification: its type is 0 or the question's type, its class is 0 or the
question's class, its pattern matches the question's name, and its source
network is absent or contains the client's source address. -/
def Satisfied {σ : Type} (rt : route σ) (question : Question) (ci : ClientInfo) : Prop :=
  (rt.typ = 0 ∨ rt.typ = question.Qtype) ∧
  (rt.«class» = 0 ∨ rt.«class» = question.Qclass) ∧
  rt.name.MatchString question.Name = true ∧
  (match rt.source with
    | none => True
    | some sNet => sNet.Contains ci.SourceIP = true)

instance {σ : Type} (rt : route σ) (question : Question) (ci : ClientInfo) :
    Decidable (Satisfied rt question ci) := by
  unfold Satisfied
  cases rt.source <;> exact inferInstance

/-! ## Reachable router states -/

/-- The states of a router that starts as `NewRouter(id)` and then receives
`Add` calls (failing or not) and `Resolve` calls, with arbitrary arguments and
in arbitrary worlds. -/
inductive Reachable {σ : Type} (lib : Lib) (reg : Registry) (id : String) : Router σ → Prop where
  | init : Reachable lib reg id (NewRouter reg id)
  | add {r : Router σ} (h : Reachable lib reg id r)
      (name «class» typ source : String) (resolver : Resolver σ) :
      Reachable lib reg id (Router.Add lib r name «class» typ source resolver).2
  | resolve {r : Router σ} (h : Reachable lib reg id r)
      (q : Msg) (ci : ClientInfo) (w : σ) :
      Reachable lib reg id (Router.Resolve lib r q ci w).router

/-! ## A router as a target -/

/-- The method `Router.String`. -/
def Router.String {σ : Type} (r : Router σ) : String :=
  r.id

/-- A router used as the target of another router (`var _ Resolver = &Router{}`).
Its counters are not part of what the caller sees: `Resolve` never reads them. -/
def Router.asResolver {σ : Type} (lib : Lib) (r : Router σ) : Resolver σ :=
  { Resolve := fun q ci w =>
      let o := Router.Resolve lib r q ci w
      ((o.a, o.err), o.world)
    String := Router.String r }

/-! ## Concrete instances for running the definitions -/

/-- Modelled from the spec: the table `dns.TypeToString` belongs to the DNS
message library and is not in the source; these are the standard record-type
mnemonics with their wire codes (A=1, MX=15, AAAA=28, ...). -/
def TypeToString : List (Nat × String) :=
  [(0, "None"), (1, "A"), (2, "NS"), (3, "MD"), (4, "MF"), (5, "CNAME"), (6, "SOA"),
   (7, "MB"), (8, "MG"), (9, "MR"), (10, "NULL"), (12, "PTR"), (13, "HINFO"),
   (14, "MINFO"), (15, "MX"), (16, "TXT"), (17, "RP"), (18, "AFSDB"), (19, "X25"),
   (20, "ISDN"), (21, "RT"), (23, "NSAP-PTR"), (24, "SIG"), (25, "KEY"), (26, "PX"),
   (27, "GPOS"), (28, "AAAA"), (29, "LOC"), (30, "NXT"), (31, "EID"), (32, "NIMLOC"),
   (33, "SRV"), (34, "ATMA"), (35, "NAPTR"), (36, "KX"), (37, "CERT"), (39, "DNAME"),
   (41, "OPT"), (42, "APL"), (43, "DS"), (44, "SSHFP"), (46, "RRSIG"), (47, "NSEC"),
   (48, "DNSKEY"), (49, "DHCID"), (50, "NSEC3"), (51, "NSEC3PARAM"), (52, "TLSA"),
   (53, "SMIMEA"), (55, "HIP"), (56, "NINFO"), (57, "RKEY"), (58, "TALINK"),
   (59, "CDS"), (60, "CDNSKEY"), (61, "OPENPGPKEY"), (62, "CSYNC"), (99, "SPF"),
   (100, "UINFO"), (101, "UID"), (102, "GID"), (103, "UNSPEC"), (104, "NID"),
   (105, "L32"), (106, "L64"), (107, "LP"), (108, "EUI48"), (109, "EUI64"),
   (249, "TKEY"), (250, "TSIG"), (251, "IXFR"), (252, "AXFR"), (253, "MAILB"),
   (254, "MAILA"), (255, "ANY"), (256, "URI"), (257, "CAA"), (258, "AVC"),
   (32768, "TA"), (32769, "DLV"), (65535, "Reserved")]

/-- The model of `dns.Type.String`: the mnemonic of the table, or `TYPE`
followed by the number. -/
def typeString (table : List (Nat × String)) (t : Nat) : String :=
  match table.find? (fun kv => kv.1 == t) with
  | some kv => kv.2
  | none => "TYPE" ++ toString t

/-- Modelled from the spec: the table `dns.ClassToString` belongs to the DNS
message library and is not in the source; these are the standard class
mnemonics with their wire codes. -/
def ClassToString : List (Nat × String) :=
  [(1, "IN"), (2, "CS"), (3, "CH"), (4, "HS"), (254, "NONE"), (255, "ANY")]

/-- The model of `dns.Class.String`: the mnemonic of the table unless it is a
type mnemonic as well, and `CLASS` followed by the number otherwise. -/
def classString (c : Nat) : String :=
  match ClassToString.find? (fun kv => kv.1 == c) with
  | some kv =>
    if TypeToString.any (fun tv => tv.2 == kv.2) then "CLASS" ++ toString c else kv.2
  | none => "CLASS" ++ toString c

/-- The model of `dns.Question.String`, for names that need no escaping: a
semicolon, the name, a tab, the class, a tab, a blank and the type. -/
def questionString (question : Question) : String :=
  ";" ++ question.Name ++ "\t" ++ classString question.Qclass ++ "\t" ++ " " ++
    typeString TypeToString question.Qtype

/-- The characters with a special meaning in a regular expression. -/
def metaChars : List Char :=
  ['\\', '.', '+', '*', '?', '(', ')', '|', '[', ']', '{', '}', '^', '$']

/-- The regular expression compiled from a pattern without special characters:
an unanchored search for the pattern as a substring. -/
def literalRegexp (pattern : String) : Regexp :=
  { expr := pattern
    MatchString := fun name => decide (pattern.data <:+: name.data) }

/-- A library instance for concrete runs.  It agrees with the real libraries on
what the runs below use: patterns free of special characters compile to a
substring search, a source that is no network literal is rejected.  Patterns
with special characters and well-formed network literals are outside this
instance, which rejects them too. -/
def literalLib : Lib :=
  { TypeToString := TypeToString
    regexpCompile := fun pattern =>
      if pattern.data.any (fun c => metaChars.contains c) then
        .error (Error.other ("error parsing regexp: " ++ pattern))
      else .ok (literalRegexp pattern)
    ParseCIDR := fun source => .error (Error.other ("invalid CIDR address: " ++ source))
    questionString := questionString }

/-- A registry in which every exported variable is zero. -/
def zeroRegistry : Registry :=
  { ints := fun _ _ _ => 0
    maps := fun _ _ _ _ => 0 }

/-- A target that answers with the query itself and records its call in the
world, a list of the names of the targets called so far. -/
def okTarget (name : String) : Resolver (List String) :=
  { Resolve := fun q _ w => ((some q, none), w ++ [name])
    String := name }

/-- A target that fails and records its call in the world. -/
def failTarget (name : String) : Resolver (List String) :=
  { Resolve := fun _ _ w => ((none, some (Error.other "upstream failure")), w ++ [name])
    String := name }

/-- A query with the single question `example.com. IN A`. -/
def sampleQuery : Msg :=
  { MsgHdr := 7
    Question := [{ Name := "example.com.", Qtype := 1, Qclass := 1 }]
    Answer := [], Ns := [], Extra := [] }

/-- A query without a question. -/
def emptyQuery : Msg :=
  { MsgHdr := 7, Question := [], Answer := [], Ns := [], Extra := [] }

/-- A client with source address 192.0.2.1. -/
def sampleClient : ClientInfo :=
  { SourceIP := [192, 0, 2, 1] }

/-- A router with the single rule `Add("", "", "", "", failTarget "R1")`. -/
def oneRuleRouter : Router (List String) :=
  (Router.Add literalLib (NewRouter zeroRegistry "r") "" "" "" "" (failTarget "R1")).2

/-- A router with the rules `Add("example", "IN", "A", "", failTarget "R1")` and
`Add("", "", "", "", okTarget "R2")`, in this order. -/
def twoRuleRouter : Router (List String) :=
  (Router.Add literalLib
    (Router.Add literalLib (NewRouter zeroRegistry "r") "example" "IN" "A" ""
      (failTarget "R1")).2
    "" "" "" "" (okTarget "R2")).2

/-- A router whose only rule, `Add("", "", "", "", inner)`, has as target a
router `inner` without rules. -/
def nestedRouter : Router (List String) :=
  (Router.Add literalLib (NewRouter zeroRegistry "outer") "" "" "" ""
    (Router.asResolver literalLib (NewRouter zeroRegistry "inner"))).2

/-! ## Labels of rules -/

/-- The method `route.isDefault`. -/
def route.isDefault {σ : Type} (r : route σ) : Bool :=
  r.typ == 0 && r.name.expr == ""

/-- The method `route.String`.  The text of a type code (`dns.Type(r.typ)` under
the verb `%s`) comes from the DNS message library and is the parameter
`typeString`. -/
def route.String {σ : Type} (typeString : Nat → String) (r : route σ) : String :=
  if r.isDefault then
    "default->" ++ r.resolver.String
  else
    r.name.expr ++ ":" ++ typeString r.typ ++ "->" ++ r.resolver.String

/-! ## Sequences of calls -/

/-- The router `r'` is what `r` has become after some `Add` calls (failing or
not) and `Resolve` calls, with arbitrary arguments and in arbitrary worlds. -/
inductive Steps {σ : Type} (lib : Lib) (r : Router σ) : Router σ → Prop where
  | refl : Steps lib r r
  | add {r' : Router σ} (h : Steps lib r r')
      (name «class» typ source : String) (resolver : Resolver σ) :
      Steps lib r (Router.Add lib r' name «class» typ source resolver).2
  | resolve {r' : Router σ} (h : Steps lib r r')
      (q : Msg) (ci : ClientInfo) (w : σ) :
      Steps lib r (Router.Resolve lib r' q ci w).router

/-- What the router relies on for the empty pattern: `regexp.Compile("")`
succeeds and the compiled expression matches every string. -/
def EmptyPatternMatchesAll (lib : Lib) : Prop :=
  ∃ re : Regexp, lib.regexpCompile "" = .ok re ∧ ∀ s : String, re.MatchString s = true

/-! ## A model of the libraries on a sub-language

The regular expressions covered are the concatenations of literal characters,
escaped special characters, `.`, `^` and `$`; the networks covered are the IPv4
literals `a.b.c.d/n` with the four bytes written in decimal without leading
zeros.  On these the model follows the documented behaviour of
`regexp.Compile`, `(*Regexp).MatchString`, `net.ParseCIDR` and
`(*IPNet).Contains`; every other input is rejected by the model. -/

/-- The items of a pattern of the sub-language. -/
inductive Atom where
  /-- The item `^`: the beginning of the text. -/
  | beginText
  /-- The item `$`: the end of the text. -/
  | endText
  /-- The item `.`: any character but a newline. -/
  | anyChar
  /-- A literal character, escaped or not. -/
  | lit (c : Char)
  deriving DecidableEq, Repr

/-- Reading a pattern: `escaped` tells that the previous character was a
backslash. -/
def parsePattern : Bool → List Char → Except Error (List Atom)
  | false, [] => .ok []
  | true, [] => .error (Error.other "error parsing regexp: trailing backslash at end of expression")
  | true, c :: rest =>
    if metaChars.contains c then
      match parsePattern false rest with
      | .ok atoms => .ok (Atom.lit c :: atoms)
      | .error e => .error e
    else .error (Error.other "error parsing regexp: escape outside the sub-language")
  | false, c :: rest =>
    if c = '\\' then parsePattern true rest
    else if c = '^' then
      match parsePattern false rest with
      | .ok atoms => .ok (Atom.beginText :: atoms)
      | .error e => .error e
    else if c = '$' then
      match parsePattern false rest with
      | .ok atoms => .ok (Atom.endText :: atoms)
      | .error e => .error e
    else if c = '.' then
      match parsePattern false rest with
      | .ok atoms => .ok (Atom.anyChar :: atoms)
      | .error e => .error e
    else if metaChars.contains c then
      .error (Error.other "error parsing regexp: operator outside the sub-language")
    else
      match parsePattern false rest with
      | .ok atoms => .ok (Atom.lit c :: atoms)
      | .error e => .error e

/-- Whether the items match a prefix of the text; `atStart` tells that no
character of the whole text has been consumed yet. -/
def matchAt : List Atom → List Char → Bool → Bool
  | [], _, _ => true
  | Atom.beginText :: atoms, text, atStart => atStart && matchAt atoms text atStart
  | Atom.endText :: atoms, text, atStart => text.isEmpty && matchAt atoms text atStart
  | Atom.anyChar :: _, [], _ => false
  | Atom.anyChar :: atoms, c :: text, _ => c != '\n' && matchAt atoms text false
  | Atom.lit _ :: _, [], _ => false
  | Atom.lit d :: atoms, c :: text, _ => c == d && matchAt atoms text false

/-- Whether the items match somewhere in the text (an unanchored search). -/
def searchFrom (atoms : List Atom) : List Char → Bool → Bool
  | [], atStart => matchAt atoms [] atStart
  | c :: text, atStart => matchAt atoms (c :: text) atStart || searchFrom atoms text false

/-- The model of `regexp.Compile`. -/
def regexpCompile (pattern : String) : Except Error Regexp :=
  match parsePattern false pattern.data with
  | .error e => .error e
  | .ok atoms => .ok { expr := pattern, MatchString := fun s => searchFrom atoms s.data true }

/-- Splitting a text at a separator. -/
def splitAt (sep : Char) : List Char → List (List Char)
  | [] => [[]]
  | c :: rest =>
    if c = sep then [] :: splitAt sep rest
    else
      match splitAt sep rest with
      | [] => [[c]]
      | part :: parts => (c :: part) :: parts

/-- The value of a non-empty text of decimal digits without a leading zero
(the text "0" apart). -/
def parseDecimal (digits : List Char) : Option Nat :=
  if digits.isEmpty then none
  else if digits.length > 1 ∧ digits.head? = some '0' then none
  else if digits.all (fun c => '0' ≤ c ∧ c ≤ '9') then
    some (digits.foldl (fun n c => 10 * n + (c.toNat - '0'.toNat)) 0)
  else none

/-- The value of a non-empty text of decimal digits, leading zeros allowed. -/
def parseDigits (digits : List Char) : Option Nat :=
  if digits.isEmpty then none
  else if digits.all (fun c => '0' ≤ c ∧ c ≤ '9') then
    some (digits.foldl (fun n c => 10 * n + (c.toNat - '0'.toNat)) 0)
  else none

/-- The four bytes of an IPv4 address in dotted decimal form. -/
def parseIPv4 (text : List Char) : Option (List Nat) :=
  match (splitAt '.' text).map parseDecimal with
  | [some a, some b, some c, some d] =>
    if a ≤ 255 ∧ b ≤ 255 ∧ c ≤ 255 ∧ d ≤ 255 then some [a, b, c, d] else none
  | _ => none

/-- The function `net.CIDRMask(ones, 32)`: the mask with `ones` leading 1 bits,
as four bytes. -/
def CIDRMask (ones : Nat) : List Nat :=
  (List.range 4).map (fun i => 256 - 2 ^ (8 - min 8 (ones - 8 * i)))

/-- The method `IP.To4`: the four-byte form of an IPv4 address given in four or
in sixteen bytes. -/
def To4 (ip : IP) : Option IP :=
  if ip.length = 4 then some ip
  else if ip.length = 16 ∧ ip.take 10 = List.replicate 10 0 ∧ (ip.drop 10).take 2 = [255, 255] then
    some (ip.drop 12)
  else none

/-- The method `(*IPNet).Contains` for a network given by its number and its
mask. -/
def containsIP (nn m : List Nat) (ip : IP) : Bool :=
  let ip := match To4 ip with
    | some x => x
    | none => ip
  if ip.length ≠ nn.length then false
  else ((nn.zip m).zip ip).all (fun x => x.1.1 &&& x.1.2 == x.2 &&& x.1.2)

/-- The model of `net.ParseCIDR` on IPv4 literals. -/
def ParseCIDR (s : String) : Except Error IPNet :=
  match splitAt '/' s.data with
  | [addr, bits] =>
    match parseIPv4 addr, parseDigits bits with
    | some ip, some n =>
      if n ≤ 32 then
        .ok { Contains := containsIP ((ip.zip (CIDRMask n)).map (fun x => x.1 &&& x.2))
                (CIDRMask n) }
      else .error (Error.other ("invalid CIDR address: " ++ s))
    | _, _ => .error (Error.other ("invalid CIDR address: " ++ s))
  | _ => .error (Error.other ("invalid CIDR address: " ++ s))

/-- The library instance built from the model. -/
def stdLib : Lib :=
  { TypeToString := TypeToString
    regexpCompile := regexpCompile
    ParseCIDR := ParseCIDR
    questionString := questionString }

/-- A router whose first rule is `Add("", "", "", "", okTarget "T")`, followed by
`Add("example", "IN", "A", "", okTarget "R2")`. -/
def wildcardFirstRouter : Router (List String) :=
  (Router.Add stdLib
    (Router.Add stdLib (NewRouter zeroRegistry "r") "" "" "" "" (okTarget "T")).2
    "example" "IN" "A" "" (okTarget "R2")).2

/-- A router with the rule `Add("", "CH", "", "", okTarget "R1")`, before the
last rule is added. -/
def chaosOnlyRouter : Router (List String) :=
  (Router.Add stdLib (NewRouter zeroRegistry "r") "" "CH" "" "" (okTarget "R1")).2

/-- The router `chaosOnlyRouter` with the last rule `Add("", "", "", "", inner)`,
where `inner` is a router without rules. -/
def defaultToEmptyRouter : Router (List String) :=
  (Router.Add stdLib chaosOnlyRouter "" "" "" ""
    (Router.asResolver stdLib (NewRouter zeroRegistry "inner"))).2

/-- A router with the single rule `Add("", "", "", "10.0.0.0/8", okTarget "R1")`. -/
def sourceOnlyRouter : Router (List String) :=
  (Router.Add stdLib (NewRouter zeroRegistry "r") "" "" "" "10.0.0.0/8" (okTarget "R1")).2

/-- The router of the end-to-end scenario: on a fresh router,
`Add("\\.internal\\.$", "", "A", "10.0.0.0/8", R1)` and then
`Add("", "", "", "", R2)`. -/
def scenarioRouter {σ : Type} (id : String) (R1 R2 : Resolver σ) : Router σ :=
  (Router.Add stdLib
    (Router.Add stdLib (NewRouter zeroRegistry id) "\\.internal\\.$" "" "A" "10.0.0.0/8" R1).2
    "" "" "" "" R2).2

/-- The pattern `\.internal\.$` as the model compiles it. -/
def internalRegexp : Regexp :=
  { expr := "\\.internal\\.$"
    MatchString := fun s =>
      searchFrom (".internal.".data.map Atom.lit ++ [Atom.endText]) s.data true }

/-- The pattern "" as the model compiles it. -/
def emptyRegexp : Regexp :=
  { expr := "", MatchString := fun s => searchFrom [] s.data true }

/-- The network `10.0.0.0/8` as the model parses it. -/
def tenNet : IPNet :=
  { Contains := containsIP [10, 0, 0, 0] [255, 0, 0, 0] }

/-- A query with the single question `host.internal.` of the given type, class
IN. -/
def hostQuery (qtype : Nat) : Msg :=
  { MsgHdr := 1
    Question := [{ Name := "host.internal.", Qtype := qtype, Qclass := 1 }]
    Answer := [], Ns := [], Extra := [] }

/-- The scenario run with a failing R1 and an answering R2, both recording
their calls: the outcome of the first call. -/
def scenarioOutcome1 : Outcome (List String) :=
  Router.Resolve stdLib
    (scenarioRouter "r" { Resolve := (failTarget "R1").Resolve, String := "R1" }
      { Resolve := (okTarget "R2").Resolve, String := "R2" })
    (hostQuery 1) { SourceIP := [10, 1, 2, 3] } []

/-- The outcome of the second call of the scenario run. -/
def scenarioOutcome2 : Outcome (List String) :=
  Router.Resolve stdLib scenarioOutcome1.router (hostQuery 1) { SourceIP := [8, 8, 8, 8] }
    scenarioOutcome1.world

/-- The outcome of the third call of the scenario run. -/
def scenarioOutcome3 : Outcome (List String) :=
  Router.Resolve stdLib scenarioOutcome2.router (hostQuery 28) { SourceIP := [10, 1, 2, 3] }
    scenarioOutcome2.world

/-- A query with the first question of `sampleQuery`, a second question and
other header and sections. -/
def twoQuestionQuery : Msg :=
  { MsgHdr := 99
    Question := [{ Name := "example.com.", Qtype := 1, Qclass := 1 },
                 { Name := "other.test.", Qtype := 28, Qclass := 3 }]
    Answer := ["a"], Ns := [], Extra := ["e"] }

/-- A pattern free of special characters as the model compiles it. -/
def literalPattern (pattern : String) : Regexp :=
  { expr := pattern
    MatchString := fun s => searchFrom (pattern.data.map Atom.lit) s.data true }

/-- The pattern `^example\.com\.$` as the model compiles it. -/
def anchoredExample : Regexp :=
  { expr := "^example\\.com\\.$"
    MatchString := fun s =>
      searchFrom (Atom.beginText :: ("example.com.".data.map Atom.lit ++ [Atom.endText]))
        s.data true }

/-- A query with the single question `www.example.com. IN A`. -/
def wwwQuery : Msg :=
  { MsgHdr := 7
    Question := [{ Name := "www.example.com.", Qtype := 1, Qclass := 1 }]
    Answer := [], Ns := [], Extra := [] }

/-! ## Helper lemmas -/

theorem resolveLoop_cons_of_not_satisfied {σ : Type} (lib : Lib) (r : Router σ) (q : Msg)
    (question : Question) (ci : ClientInfo) (w : σ) (rt : route σ) (rest : List (route σ))
    (h : ¬ Satisfied rt question ci) :
    Router.resolveLoop lib r q question ci w (rt :: rest) =
      Router.resolveLoop lib r q question ci w rest := by
  unfold Satisfied at h
  rw [Router.resolveLoop]
  cases hs : rt.source <;> simp [hs] at h ⊢ <;> intros <;> simp_all <;> omega

theorem resolveLoop_cons_of_satisfied {σ : Type} (lib : Lib) (r : Router σ) (q : Msg)
    (question : Question) (ci : ClientInfo) (w : σ) (rt : route σ) (rest : List (route σ))
    (h : Satisfied rt question ci) :
    Router.resolveLoop lib r q question ci w (rt :: rest) = Router.dispatch r rt q ci w := by
  unfold Satisfied at h
  rw [Router.resolveLoop]
  cases hs : rt.source <;> simp [hs] at h ⊢
  · obtain ⟨h1, h2, h3⟩ := h
    rw [if_neg (by tauto), if_neg (by tauto), if_neg (by simp [h3])]
  · obtain ⟨h1, h2, h3, h4⟩ := h
    rw [if_neg (by tauto), if_neg (by tauto), if_neg (by simp [h3]), if_neg (by simp [h4])]

theorem resolveLoop_of_none_satisfied {σ : Type} (lib : Lib) (r : Router σ) (q : Msg)
    (question : Question) (ci : ClientInfo) (w : σ) (l : List (route σ))
    (h : ∀ rt ∈ l, ¬ Satisfied rt question ci) :
    Router.resolveLoop lib r q question ci w l =
      { a := none, err := some (Error.NoRoute (lib.questionString question)),
        router := r, world := w } := by
  induction l with
  | nil => rfl
  | cons rt rest ih =>
    rw [resolveLoop_cons_of_not_satisfied lib r q question ci w rt rest
      (h rt (List.mem_cons_self rt rest))]
    exact ih (fun x hx => h x (List.mem_cons_of_mem rt hx))

theorem resolveLoop_append_of_satisfied {σ : Type} (lib : Lib) (r : Router σ) (q : Msg)
    (question : Question) (ci : ClientInfo) (w : σ) (pre post : List (route σ)) (rt : route σ)
    (hpre : ∀ x ∈ pre, ¬ Satisfied x question ci) (hrt : Satisfied rt question ci) :
    Router.resolveLoop lib r q question ci w (pre ++ rt :: post) =
      Router.dispatch r rt q ci w := by
  induction pre with
  | nil => exact resolveLoop_cons_of_satisfied lib r q question ci w rt post hrt
  | cons x rest ih =>
    rw [List.cons_append, resolveLoop_cons_of_not_satisfied lib r q question ci w x _
      (hpre x (List.mem_cons_self x rest))]
    exact ih (fun y hy => hpre y (List.mem_cons_of_mem x hy))

/-- The first satisfied rule of a list that has one: its index, the rules before
it are not satisfied, and the loop dispatches to it. -/
theorem resolveLoop_first_satisfied {σ : Type} (lib : Lib) (r : Router σ) (q : Msg)
    (question : Question) (ci : ClientInfo) (w : σ) (l : List (route σ))
    (h : ∃ rt ∈ l, Satisfied rt question ci) :
    ∃ (i : Nat) (hi : i < l.length),
      Satisfied (l.get ⟨i, hi⟩) question ci ∧
      (∀ (j : Nat) (hj : j < l.length), j < i → ¬ Satisfied (l.get ⟨j, hj⟩) question ci) ∧
      Router.resolveLoop lib r q question ci w l =
        Router.dispatch r (l.get ⟨i, hi⟩) q ci w := by
  induction l with
  | nil =>
    obtain ⟨rt, hrt, _⟩ := h
    cases hrt
  | cons x rest ih =>
    by_cases hx : Satisfied x question ci
    · refine ⟨0, Nat.succ_pos _, hx, ?_, ?_⟩
      · intro j _ hj0
        omega
      · exact resolveLoop_cons_of_satisfied lib r q question ci w x rest hx
    · have hrest : ∃ rt ∈ rest, Satisfied rt question ci := by
        obtain ⟨rt, hmem, hsat⟩ := h
        rcases List.mem_cons.mp hmem with heq | hmem'
        · subst heq
          exact absurd hsat hx
        · exact ⟨rt, hmem', hsat⟩
      obtain ⟨i, hi, hsat, hmin, hres⟩ := ih hrest
      refine ⟨i + 1, Nat.succ_lt_succ hi, hsat, ?_, ?_⟩
      · intro j hj hji
        cases j with
        | zero => exact hx
        | succ j => exact hmin j (Nat.lt_of_succ_lt_succ hj) (Nat.lt_of_succ_lt_succ hji)
      · rw [resolveLoop_cons_of_not_satisfied lib r q question ci w x rest hx]
        exact hres

theorem Resolve_of_question {σ : Type} (lib : Lib) (r : Router σ) (q : Msg) (ci : ClientInfo)
    (w : σ) (question : Question) (rest : List Question) (hq : q.Question = question :: rest) :
    Router.Resolve lib r q ci w = Router.resolveLoop lib r q question ci w r.routes := by
  unfold Router.Resolve
  rw [hq]

theorem dispatch_route {σ : Type} (r : Router σ) (rt : route σ) (q : Msg) (ci : ClientInfo)
    (w : σ) :
    (Router.dispatch r rt q ci w).router.metrics.route =
      mapAdd r.metrics.route rt.resolver.String 1 := by
  unfold Router.dispatch
  cases h : (rt.resolver.Resolve q ci w).1.2 <;> simp [h]

theorem dispatch_failure {σ : Type} (r : Router σ) (rt : route σ) (q : Msg) (ci : ClientInfo)
    (w : σ) :
    (Router.dispatch r rt q ci w).router.metrics.failure =
      mapAdd r.metrics.failure rt.resolver.String
        (if ((rt.resolver.Resolve q ci w).1.2).isSome then 1 else 0) := by
  unfold Router.dispatch
  cases h : (rt.resolver.Resolve q ci w).1.2
  · funext k
    simp [h, mapAdd]
  · simp [h]

theorem dispatch_frame {σ : Type} (r : Router σ) (rt : route σ) (q : Msg) (ci : ClientInfo)
    (w : σ) :
    (Router.dispatch r rt q ci w).router.metrics.available = r.metrics.available ∧
    (Router.dispatch r rt q ci w).router.routes = r.routes ∧
    (Router.dispatch r rt q ci w).router.id = r.id := by
  unfold Router.dispatch
  cases h : (rt.resolver.Resolve q ci w).1.2 <;> simp [h]

theorem mapAdd_one_ne (m : String → Int) (key : String) : mapAdd m key 1 ≠ m := by
  intro h
  have := congrFun h key
  simp [mapAdd] at this

theorem resolveLoop_frame {σ : Type} (lib : Lib) (r : Router σ) (q : Msg)
    (question : Question) (ci : ClientInfo) (w : σ) (l : List (route σ)) :
    (Router.resolveLoop lib r q question ci w l).router.metrics.available =
      r.metrics.available ∧
    (Router.resolveLoop lib r q question ci w l).router.routes = r.routes := by
  induction l with
  | nil => exact ⟨rfl, rfl⟩
  | cons x rest ih =>
    by_cases hx : Satisfied x question ci
    · rw [resolveLoop_cons_of_satisfied lib r q question ci w x rest hx]
      exact ⟨(dispatch_frame r x q ci w).1, (dispatch_frame r x q ci w).2.1⟩
    · rw [resolveLoop_cons_of_not_satisfied lib r q question ci w x rest hx]
      exact ih

theorem Resolve_frame {σ : Type} (lib : Lib) (r : Router σ) (q : Msg) (ci : ClientInfo)
    (w : σ) :
    (Router.Resolve lib r q ci w).router.metrics.available = r.metrics.available ∧
    (Router.Resolve lib r q ci w).router.routes = r.routes := by
  unfold Router.Resolve
  cases q.Question with
  | nil => exact ⟨rfl, rfl⟩
  | cons question rest => exact resolveLoop_frame lib r q question ci w r.routes

/-- The two ways `Add` can end: with an error and the router it was given, or
without error and the router extended by the rule built from the arguments. -/
theorem Add_cases {σ : Type} (lib : Lib) (r : Router σ)
    (name «class» typ source : String) (resolver : Resolver σ) :
    (∃ e : Error, Router.Add lib r name «class» typ source resolver = (some e, r)) ∨
    (∃ (t c : Nat) (re : Regexp) (sNet : Option IPNet),
      stringToType lib.TypeToString typ = .ok t ∧
      stringToClass «class» = .ok c ∧
      lib.regexpCompile name = .ok re ∧
      ((source = "" ∧ sNet = none) ∨
        (source ≠ "" ∧ ∃ n : IPNet, lib.ParseCIDR source = .ok n ∧ sNet = some n)) ∧
      Router.Add lib r name «class» typ source resolver =
        (none,
          { r with
            routes := r.routes ++
              [{ typ := t, «class» := c, name := re, source := sNet, resolver := resolver }]
            metrics := { r.metrics with available := r.metrics.available + 1 } })) := by
  unfold Router.Add
  cases h1 : stringToType lib.TypeToString typ with
  | error e => exact Or.inl ⟨e, rfl⟩
  | ok t =>
    cases h2 : stringToClass «class» with
    | error e => exact Or.inl ⟨e, rfl⟩
    | ok c =>
      cases h3 : lib.regexpCompile name with
      | error e => exact Or.inl ⟨e, rfl⟩
      | ok re =>
        by_cases hs : source = ""
        · refine Or.inr ⟨t, c, re, none, rfl, rfl, rfl, Or.inl ⟨hs, rfl⟩, ?_⟩
          simp [hs]
        · cases h4 : lib.ParseCIDR source with
          | error e =>
            refine Or.inl ⟨e, ?_⟩
            simp [hs, h4]
          | ok n =>
            refine Or.inr ⟨t, c, re, some n, rfl, rfl, rfl, Or.inr ⟨hs, n, rfl, rfl⟩, ?_⟩
            simp [hs, h4]

theorem scan_ok_mem (s : String) (tbl : List (Nat × String)) (k : Nat)
    (h : stringToType.scan s tbl = .ok k) : (k, s) ∈ tbl := by
  induction tbl with
  | nil => simp [stringToType.scan] at h
  | cons kv rest ih =>
    obtain ⟨k', v⟩ := kv
    unfold stringToType.scan at h
    by_cases hv : v = s
    · rw [if_pos hv] at h
      cases h
      rw [hv]
      exact List.mem_cons_self _ _
    · rw [if_neg hv] at h
      exact List.mem_cons_of_mem _ (ih h)

theorem scan_error (s : String) (tbl : List (Nat × String)) (e : Error)
    (h : stringToType.scan s tbl = .error e) :
    e = Error.UnknownType s ∧ ∀ k : Nat, (k, s) ∉ tbl := by
  induction tbl with
  | nil =>
    unfold stringToType.scan at h
    cases h
    exact ⟨rfl, fun k hk => by cases hk⟩
  | cons kv rest ih =>
    obtain ⟨k', v⟩ := kv
    unfold stringToType.scan at h
    by_cases hv : v = s
    · rw [if_pos hv] at h
      cases h
    · rw [if_neg hv] at h
      obtain ⟨he, hnot⟩ := ih h
      refine ⟨he, fun k hk => ?_⟩
      rcases List.mem_cons.mp hk with heq | hmem
      · exact hv (congrArg Prod.snd heq).symm
      · exact hnot k hmem

theorem scan_of_mem_nodup (s : String) (tbl : List (Nat × String)) (k : Nat)
    (hmem : (k, s) ∈ tbl) (hinj : (tbl.map Prod.snd).Nodup) :
    stringToType.scan s tbl = .ok k := by
  induction tbl with
  | nil => cases hmem
  | cons kv rest ih =>
    obtain ⟨k', v⟩ := kv
    rw [List.map_cons, List.nodup_cons] at hinj
    unfold stringToType.scan
    rcases List.mem_cons.mp hmem with heq | hrest
    · cases heq
      rw [if_pos rfl]
    · have hv : v ≠ s := by
        intro hvs
        apply hinj.1
        rw [hvs]
        exact List.mem_map.mpr ⟨(k, s), hrest, rfl⟩
      rw [if_neg hv]
      exact ih hrest hinj.2

theorem searchFrom_nil (text : List Char) (atStart : Bool) :
    searchFrom [] text atStart = true := by
  cases text <;> simp [searchFrom, matchAt]

theorem stdLib_empty_pattern : EmptyPatternMatchesAll stdLib :=
  ⟨{ expr := "", MatchString := fun s => searchFrom [] s.data true }, rfl,
    fun s => searchFrom_nil s.data true⟩

/-- With the empty pattern compiling, `Add("", "", "", "", T)` succeeds and
appends the rule without any restriction. -/
theorem Add_wildcard {σ : Type} (lib : Lib) (r : Router σ) (T : Resolver σ) (re : Regexp)
    (hre : lib.regexpCompile "" = .ok re) :
    Router.Add lib r "" "" "" "" T =
      (none,
        { r with
          routes := r.routes ++
            [{ typ := 0, «class» := 0, name := re, source := none, resolver := T }]
          metrics := { r.metrics with available := r.metrics.available + 1 } }) := by
  unfold Router.Add
  simp [stringToType, stringToClass, hre]

theorem wildcard_satisfied {σ : Type} (T : Resolver σ) (re : Regexp)
    (hall : ∀ s : String, re.MatchString s = true) (question : Question) (ci : ClientInfo) :
    Satisfied ({ typ := 0, «class» := 0, name := re, source := none, resolver := T } : route σ)
      question ci :=
  ⟨Or.inl rfl, Or.inl rfl, hall question.Name, trivial⟩

theorem Steps_routes {σ : Type} (lib : Lib) (r r' : Router σ) (h : Steps lib r r') :
    ∃ extra : List (route σ), r'.routes = r.routes ++ extra := by
  induction h with
  | refl => exact ⟨[], (List.append_nil _).symm⟩
  | @add r'' _ name cls typ source resolver ih =>
    obtain ⟨extra, hextra⟩ := ih
    rcases Add_cases lib r'' name cls typ source resolver with
      ⟨e, he⟩ | ⟨t, c, re, sNet, _, _, _, _, hok⟩
    · rw [he]
      exact ⟨extra, hextra⟩
    · rw [hok]
      refine ⟨extra ++ [⟨t, c, re, sNet, resolver⟩], ?_⟩
      simp [hextra]
  | @resolve r'' _ q ci w ih =>
    obtain ⟨extra, hextra⟩ := ih
    exact ⟨extra, by rw [(Resolve_frame lib r'' q ci w).2, hextra]⟩

theorem resolveLoop_append_of_exists {σ : Type} (lib : Lib) (r : Router σ) (q : Msg)
    (question : Question) (ci : ClientInfo) (w : σ) (l l2 : List (route σ))
    (h : ∃ rt ∈ l, Satisfied rt question ci) :
    Router.resolveLoop lib r q question ci w (l ++ l2) =
      Router.resolveLoop lib r q question ci w l := by
  induction l with
  | nil =>
    obtain ⟨rt, hrt, _⟩ := h
    cases hrt
  | cons x rest ih =>
    rw [List.cons_append]
    by_cases hx : Satisfied x question ci
    · rw [resolveLoop_cons_of_satisfied lib r q question ci w x _ hx,
        resolveLoop_cons_of_satisfied lib r q question ci w x _ hx]
    · rw [resolveLoop_cons_of_not_satisfied lib r q question ci w x _ hx,
        resolveLoop_cons_of_not_satisfied lib r q question ci w x _ hx]
      apply ih
      obtain ⟨rt, hmem, hsat⟩ := h
      rcases List.mem_cons.mp hmem with heq | hmem'
      · subst heq
        exact absurd hsat hx
      · exact ⟨rt, hmem', hsat⟩

theorem dispatch_route_self {σ : Type} (r : Router σ) (rt : route σ) (q : Msg) (ci : ClientInfo)
    (w : σ) :
    (Router.dispatch r rt q ci w).router.metrics.route rt.resolver.String =
      r.metrics.route rt.resolver.String + 1 := by
  rw [dispatch_route]
  simp [mapAdd]

/-- A router whose last rule is satisfied always selects a rule: the last one
when no earlier rule is satisfied, the first satisfied earlier rule otherwise. -/
theorem Resolve_last_satisfied {σ : Type} (lib : Lib) (R : Router σ) (q : Msg)
    (ci : ClientInfo) (w : σ) (question : Question) (rest : List Question)
    (l : List (route σ)) (last : route σ)
    (hq : q.Question = question :: rest)
    (hroutes : R.routes = l ++ [last])
    (hlast : Satisfied last question ci) :
    (∃ rt ∈ R.routes, Satisfied rt question ci ∧
      Router.Resolve lib R q ci w = Router.dispatch R rt q ci w) ∧
    ((∀ rt ∈ l, ¬ Satisfied rt question ci) →
      Router.Resolve lib R q ci w = Router.dispatch R last q ci w) ∧
    ((∃ rt ∈ l, Satisfied rt question ci) →
      ∃ (i : Nat) (hi : i < l.length),
        Satisfied (l.get ⟨i, hi⟩) question ci ∧
        (∀ (j : Nat) (hj : j < l.length), j < i → ¬ Satisfied (l.get ⟨j, hj⟩) question ci) ∧
        Router.Resolve lib R q ci w = Router.dispatch R (l.get ⟨i, hi⟩) q ci w) := by
  have hnone : (∀ rt ∈ l, ¬ Satisfied rt question ci) →
      Router.Resolve lib R q ci w = Router.dispatch R last q ci w := by
    intro h
    rw [Resolve_of_question lib R q ci w question rest hq, hroutes]
    exact resolveLoop_append_of_satisfied lib R q question ci w l [] last h hlast
  have hsome : (∃ rt ∈ l, Satisfied rt question ci) →
      ∃ (i : Nat) (hi : i < l.length),
        Satisfied (l.get ⟨i, hi⟩) question ci ∧
        (∀ (j : Nat) (hj : j < l.length), j < i → ¬ Satisfied (l.get ⟨j, hj⟩) question ci) ∧
        Router.Resolve lib R q ci w = Router.dispatch R (l.get ⟨i, hi⟩) q ci w := by
    intro h
    rw [Resolve_of_question lib R q ci w question rest hq, hroutes,
      resolveLoop_append_of_exists lib R q question ci w l _ h]
    exact resolveLoop_first_satisfied lib R q question ci w l h
  refine ⟨?_, hnone, hsome⟩
  by_cases h : ∃ rt ∈ l, Satisfied rt question ci
  · obtain ⟨i, hi, hsat, _, hres⟩ := hsome h
    refine ⟨l.get ⟨i, hi⟩, ?_, hsat, hres⟩
    rw [hroutes]
    exact List.mem_append_left _ (List.get_mem _ _ _)
  · refine ⟨last, ?_, hlast, hnone (fun rt hmem hsat => h ⟨rt, hmem, hsat⟩)⟩
    rw [hroutes]
    exact List.mem_append_right _ (List.mem_singleton_self _)

theorem parsePattern_literal (l : List Char) (h : ∀ c ∈ l, c ∉ metaChars) :
    parsePattern false l = .ok (l.map Atom.lit) := by
  induction l with
  | nil => rfl
  | cons c rest ih =>
    have hc : c ∉ metaChars := h c (List.mem_cons_self c rest)
    have hcont : metaChars.contains c = false := by
      simpa using hc
    have h1 : c ≠ '\\' := fun e => hc (e ▸ by decide)
    have h2 : c ≠ '^' := fun e => hc (e ▸ by decide)
    have h3 : c ≠ '$' := fun e => hc (e ▸ by decide)
    have h4 : c ≠ '.' := fun e => hc (e ▸ by decide)
    rw [parsePattern, if_neg h1, if_neg h2, if_neg h3, if_neg h4, hcont,
      ih (fun d hd => h d (List.mem_cons_of_mem c hd))]
    simp

theorem matchAt_literal (l : List Char) (text : List Char) (atStart : Bool) :
    matchAt (l.map Atom.lit) text atStart = true ↔ l <+: text := by
  induction l generalizing text atStart with
  | nil => simp [matchAt]
  | cons d rest ih =>
    cases text with
    | nil => simp [matchAt]
    | cons c text =>
      simp only [List.map_cons, matchAt, Bool.and_eq_true, beq_iff_eq, ih, List.cons_prefix_cons]
      constructor
      · rintro ⟨h1, h2⟩
        exact ⟨h1.symm, h2⟩
      · rintro ⟨h1, h2⟩
        exact ⟨h1.symm, h2⟩

theorem searchFrom_literal (l : List Char) (text : List Char) (atStart : Bool) :
    searchFrom (l.map Atom.lit) text atStart = true ↔ l <:+: text := by
  induction text generalizing atStart with
  | nil =>
    rw [searchFrom, matchAt_literal]
    simp
  | cons c text ih =>
    rw [searchFrom, Bool.or_eq_true, matchAt_literal, ih, List.infix_cons_iff]

theorem matchAt_literal_end (l : List Char) (text : List Char) (atStart : Bool) :
    matchAt (l.map Atom.lit ++ [Atom.endText]) text atStart = true ↔ text = l := by
  induction l generalizing text atStart with
  | nil => cases text <;> simp [matchAt]
  | cons d rest ih =>
    cases text with
    | nil => simp [matchAt]
    | cons c text =>
      simp only [List.map_cons, List.cons_append, matchAt, Bool.and_eq_true, beq_iff_eq,
        List.cons.injEq]
      exact and_congr_right (fun _ => ih text false)

theorem searchFrom_begin_false (atoms : List Atom) (text : List Char) :
    searchFrom (Atom.beginText :: atoms) text false = false := by
  induction text with
  | nil => simp [searchFrom, matchAt]
  | cons c text ih => simp [searchFrom, matchAt, ih]

theorem searchFrom_begin_true (atoms : List Atom) (text : List Char) :
    searchFrom (Atom.beginText :: atoms) text true = matchAt atoms text true := by
  cases text with
  | nil => simp [searchFrom, matchAt]
  | cons c text => simp [searchFrom, matchAt, searchFrom_begin_false]

/-- With the pattern compiling, `Add(name, "", "", "", T)` succeeds and appends
the rule restricted by the name only. -/
theorem Add_name_only {σ : Type} (lib : Lib) (r : Router σ) (T : Resolver σ) (name : String)
    (re : Regexp) (hre : lib.regexpCompile name = .ok re) :
    Router.Add lib r name "" "" "" T =
      (none,
        { r with
          routes := r.routes ++
            [{ typ := 0, «class» := 0, name := re, source := none, resolver := T }]
          metrics := { r.metrics with available := r.metrics.available + 1 } }) := by
  unfold Router.Add
  simp [stringToType, stringToClass, hre]

theorem name_only_satisfied {σ : Type} (T : Resolver σ) (re : Regexp) (question : Question)
    (ci : ClientInfo) :
    Satisfied ({ typ := 0, «class» := 0, name := re, source := none, resolver := T } : route σ)
      question ci ↔ re.MatchString question.Name = true := by
  unfold Satisfied
  simp

theorem regexpCompile_literal (pattern : String) (h : ∀ c ∈ pattern.data, c ∉ metaChars) :
    regexpCompile pattern =
      .ok { expr := pattern
            MatchString := fun s => searchFrom (pattern.data.map Atom.lit) s.data true } := by
  unfold regexpCompile
  rw [parsePattern_literal pattern.data h]

theorem Resolve_select {σ : Type} (lib : Lib) (r : Router σ) (q : Msg)
    (ci : ClientInfo) (w : σ) (question : Question) (rest : List Question)
    (pre post : List (route σ)) (rt : route σ)
    (hq : q.Question = question :: rest)
    (hroutes : r.routes = pre ++ rt :: post)
    (hpre : ∀ x ∈ pre, ¬ Satisfied x question ci)
    (hrt : Satisfied rt question ci) :
    Router.Resolve lib r q ci w = Router.dispatch r rt q ci w := by
  rw [Resolve_of_question lib r q ci w question rest hq, hroutes]
  exact resolveLoop_append_of_satisfied lib r q question ci w pre post rt hpre hrt

theorem scenarioRouter_eq {σ : Type} (id : String) (R1 R2 : Resolver σ) :
    scenarioRouter id R1 R2 =
      { id := id
        routes :=
          [{ typ := 1, «class» := 0, name := internalRegexp, source := some tenNet,
             resolver := R1 },
           { typ := 0, «class» := 0, name := emptyRegexp, source := none, resolver := R2 }]
        metrics := { route := fun _ => 0, failure := fun _ => 0, available := 2 } } := rfl

/-- The first satisfied rule of a list that has one is the same for every query
with the given first question and every world. -/
theorem resolveLoop_first_satisfied_all {σ : Type} (lib : Lib) (r : Router σ)
    (question : Question) (ci : ClientInfo) (l : List (route σ))
    (h : ∃ rt ∈ l, Satisfied rt question ci) :
    ∃ (i : Nat) (hi : i < l.length),
      Satisfied (l.get ⟨i, hi⟩) question ci ∧
      (∀ (j : Nat) (hj : j < l.length), j < i → ¬ Satisfied (l.get ⟨j, hj⟩) question ci) ∧
      ∀ (q : Msg) (w : σ), Router.resolveLoop lib r q question ci w l =
        Router.dispatch r (l.get ⟨i, hi⟩) q ci w := by
  induction l with
  | nil =>
    obtain ⟨rt, hrt, _⟩ := h
    cases hrt
  | cons x rest ih =>
    by_cases hx : Satisfied x question ci
    · refine ⟨0, Nat.succ_pos _, hx, ?_, ?_⟩
      · intro j _ hj0
        omega
      · intro q w
        exact resolveLoop_cons_of_satisfied lib r q question ci w x rest hx
    · have hrest : ∃ rt ∈ rest, Satisfied rt question ci := by
        obtain ⟨rt, hmem, hsat⟩ := h
        rcases List.mem_cons.mp hmem with heq | hmem'
        · subst heq
          exact absurd hsat hx
        · exact ⟨rt, hmem', hsat⟩
      obtain ⟨i, hi, hsat, hmin, hres⟩ := ih hrest
      refine ⟨i + 1, Nat.succ_lt_succ hi, hsat, ?_, ?_⟩
      · intro j hj hji
        cases j with
        | zero => exact hx
        | succ j => exact hmin j (Nat.lt_of_succ_lt_succ hj) (Nat.lt_of_succ_lt_succ hji)
      · intro q w
        rw [resolveLoop_cons_of_not_satisfied lib r q question ci w x rest hx]
        exact hres q w

theorem stringToClass_error (s : String) (e : Error) (h : stringToClass s = .error e) :
    e = Error.UnknownClass s := by
  unfold stringToClass at h
  split_ifs at h
  cases h
  rfl

theorem stringToType_error (tbl : List (Nat × String)) (s : String) (e : Error)
    (h : stringToType tbl s = .error e) : e = Error.UnknownType s := by
  unfold stringToType at h
  by_cases hs : s = ""
  · rw [if_pos hs] at h
    cases h
  · rw [if_neg hs] at h
    exact (scan_error s tbl e h).1

/-- A call of `Resolve` leaves the router as it is or dispatches to a rule. -/
theorem Resolve_cases {σ : Type} (lib : Lib) (r : Router σ) (q : Msg) (ci : ClientInfo)
    (w : σ) :
    (Router.Resolve lib r q ci w).router = r ∨
    ∃ rt : route σ, Router.Resolve lib r q ci w = Router.dispatch r rt q ci w := by
  cases hq : q.Question with
  | nil =>
    left
    unfold Router.Resolve
    rw [hq]
  | cons question rest =>
    rw [Resolve_of_question lib r q ci w question rest hq]
    by_cases h : ∃ rt ∈ r.routes, Satisfied rt question ci
    · obtain ⟨i, hi, _, _, hres⟩ := resolveLoop_first_satisfied lib r q question ci w r.routes h
      exact Or.inr ⟨_, hres⟩
    · left
      rw [resolveLoop_of_none_satisfied lib r q question ci w r.routes
        (fun rt hmem hsat => h ⟨rt, hmem, hsat⟩)]

/-- One call of `Resolve` lets no counter decrease and keeps every failure
counter at most the route counter of the same key. -/
theorem Resolve_counters_step {σ : Type} (lib : Lib) (r : Router σ) (q : Msg)
    (ci : ClientInfo) (w : σ) (n : String) :
    r.metrics.route n ≤ (Router.Resolve lib r q ci w).router.metrics.route n ∧
    r.metrics.failure n ≤ (Router.Resolve lib r q ci w).router.metrics.failure n ∧
    (r.metrics.failure n ≤ r.metrics.route n →
      (Router.Resolve lib r q ci w).router.metrics.failure n ≤
        (Router.Resolve lib r q ci w).router.metrics.route n) := by
  rcases Resolve_cases lib r q ci w with h | ⟨rt, h⟩
  · rw [h]
    exact ⟨le_refl _, le_refl _, fun hle => hle⟩
  · rw [h, dispatch_route, dispatch_failure]
    unfold mapAdd
    refine ⟨?_, ?_, ?_⟩
    · split_ifs <;> omega
    · split_ifs <;> omega
    · intro hle
      split_ifs <;> omega

/-- A call of `Add` leaves the route and failure counters as they are. -/
theorem Add_counters {σ : Type} (lib : Lib) (r : Router σ)
    (name «class» typ source : String) (resolver : Resolver σ) :
    (Router.Add lib r name «class» typ source resolver).2.metrics.route = r.metrics.route ∧
    (Router.Add lib r name «class» typ source resolver).2.metrics.failure =
      r.metrics.failure := by
  rcases Add_cases lib r name «class» typ source resolver with
    ⟨e, he⟩ | ⟨_, _, _, _, _, _, _, _, hok⟩
  · rw [he]
    exact ⟨rfl, rfl⟩
  · rw [hok]
    exact ⟨rfl, rfl⟩

theorem scan_first (s : String) (pre post : List (Nat × String)) (k : Nat)
    (hpre : ∀ kv ∈ pre, kv.2 ≠ s) :
    stringToType.scan s (pre ++ (k, s) :: post) = .ok k := by
  induction pre with
  | nil =>
    rw [List.nil_append, stringToType.scan, if_pos rfl]
  | cons kv rest ih =>
    obtain ⟨k', v⟩ := kv
    rw [List.cons_append, stringToType.scan,
      if_neg (hpre (k', v) (List.mem_cons_self _ _))]
    exact ih (fun x hx => hpre x (List.mem_cons_of_mem _ hx))

/-- A router whose rules before the last one are not satisfied dispatches to the
last rule if that rule is satisfied and finds no route otherwise. -/
theorem Resolve_appended_rule {σ : Type} (lib : Lib) (R : Router σ) (q : Msg)
    (ci : ClientInfo) (w : σ) (question : Question) (rest : List Question)
    (l : List (route σ)) (rt : route σ)
    (hq : q.Question = question :: rest)
    (hroutes : R.routes = l ++ [rt])
    (hl : ∀ x ∈ l, ¬ Satisfied x question ci) :
    (Satisfied rt question ci →
      Router.Resolve lib R q ci w = Router.dispatch R rt q ci w) ∧
    (¬ Satisfied rt question ci →
      Router.Resolve lib R q ci w =
        { a := none, err := some (Error.NoRoute (lib.questionString question)),
          router := R, world := w }) := by
  refine ⟨?_, ?_⟩
  · intro hsat
    exact Resolve_select lib R q ci w question rest l [] rt hq hroutes hl hsat
  · intro hnot
    rw [Resolve_of_question lib R q ci w question rest hq]
    apply resolveLoop_of_none_satisfied
    intro x hx
    rw [hroutes] at hx
    rcases List.mem_append.mp hx with h | h
    · exact hl x h
    · rw [List.mem_singleton.mp h]
      exact hnot

/-- What `Resolve` does on a router extended by `Add(name, "", "", "", T)` when
no earlier rule is satisfied: it dispatches to `T` if the compiled pattern
matches the name of the first question and finds no route otherwise. -/
theorem Resolve_after_Add_name_only {σ : Type} (lib : Lib) (r : Router σ) (T : Resolver σ)
    (name : String) (re : Regexp) (q : Msg) (ci : ClientInfo) (w : σ)
    (question : Question) (rest : List Question)
    (hre : lib.regexpCompile name = .ok re)
    (hq : q.Question = question :: rest)
    (hr : ∀ x ∈ r.routes, ¬ Satisfied x question ci) :
    (re.MatchString question.Name = true →
      ((Router.Resolve lib (Router.Add lib r name "" "" "" T).2 q ci w).a,
        (Router.Resolve lib (Router.Add lib r name "" "" "" T).2 q ci w).err) =
        (T.Resolve q ci w).1 ∧
      (Router.Resolve lib (Router.Add lib r name "" "" "" T).2 q ci w).world =
        (T.Resolve q ci w).2 ∧
      (Router.Resolve lib (Router.Add lib r name "" "" "" T).2 q ci w).router.metrics.route
        T.String = r.metrics.route T.String + 1) ∧
    (¬ re.MatchString question.Name = true →
      Router.Resolve lib (Router.Add lib r name "" "" "" T).2 q ci w =
        { a := none, err := some (Error.NoRoute (lib.questionString question)),
          router := (Router.Add lib r name "" "" "" T).2, world := w }) := by
  rw [Add_name_only lib r T name re hre]
  obtain ⟨hyes, hno⟩ := Resolve_appended_rule lib
    { r with
      routes := r.routes ++
        [{ typ := 0, «class» := 0, name := re, source := none, resolver := T }]
      metrics := { r.metrics with available := r.metrics.available + 1 } }
    q ci w question rest r.routes
    { typ := 0, «class» := 0, name := re, source := none, resolver := T } hq rfl hr
  refine ⟨?_, ?_⟩
  · intro hm
    rw [hyes ((name_only_satisfied T re question ci).mpr hm)]
    exact ⟨rfl, rfl, dispatch_route_self _ _ q ci w⟩
  · intro hm
    exact hno (fun hsat => hm ((name_only_satisfied T re question ci).mp hsat))

/-! ## Properties of `Resolve` -/

/-- C1: for every router, every query with at least one question and every
client, if some rule is satisfied by the first question and the client's source,
then there is a first satisfied rule (no rule before it in add order is
satisfied) and `Resolve` dispatches to the resolver of that rule and to no
other: the pair it returns and the world it leaves are those of one call of that
rule's resolver with the query and the client info. -/
theorem Resolve_dispatches_to_first_satisfied {σ : Type} (lib : Lib) (r : Router σ) (q : Msg)
    (ci : ClientInfo) (w : σ) (question : Question) (rest : List Question)
    (hq : q.Question = question :: rest)
    (hsat : ∃ rt ∈ r.routes, Satisfied rt question ci) :
    ∃ (i : Nat) (hi : i < r.routes.length),
      Satisfied (r.routes.get ⟨i, hi⟩) question ci ∧
      (∀ (j : Nat) (hj : j < r.routes.length), j < i →
        ¬ Satisfied (r.routes.get ⟨j, hj⟩) question ci) ∧
      ((Router.Resolve lib r q ci w).a, (Router.Resolve lib r q ci w).err) =
        ((r.routes.get ⟨i, hi⟩).resolver.Resolve q ci w).1 ∧
      (Router.Resolve lib r q ci w).world =
        ((r.routes.get ⟨i, hi⟩).resolver.Resolve q ci w).2 := by
  obtain ⟨i, hi, hs, hmin, hres⟩ :=
    resolveLoop_first_satisfied lib r q question ci w r.routes hsat
  refine ⟨i, hi, hs, hmin, ?_, ?_⟩
  · rw [Resolve_of_question lib r q ci w question rest hq, hres]
    rfl
  · rw [Resolve_of_question lib r q ci w question rest hq, hres]
    rfl

/-- Witness of C1 on the router with the rules ("example", IN, A) -> R1 and
default -> R2: both rules are satisfied by `example.com. IN A`, the first one is
selected and only R1 is called. -/
theorem Resolve_dispatches_to_first_satisfied_witness :
    sampleQuery.Question = { Name := "example.com.", Qtype := 1, Qclass := 1 } :: [] ∧
    (∃ rt ∈ twoRuleRouter.routes,
      Satisfied rt { Name := "example.com.", Qtype := 1, Qclass := 1 } sampleClient) ∧
    (Router.Resolve literalLib twoRuleRouter sampleQuery sampleClient []).world = ["R1"] ∧
    ∃ (i : Nat) (hi : i < twoRuleRouter.routes.length),
      Satisfied (twoRuleRouter.routes.get ⟨i, hi⟩)
        { Name := "example.com.", Qtype := 1, Qclass := 1 } sampleClient ∧
      (∀ (j : Nat) (hj : j < twoRuleRouter.routes.length), j < i →
        ¬ Satisfied (twoRuleRouter.routes.get ⟨j, hj⟩)
          { Name := "example.com.", Qtype := 1, Qclass := 1 } sampleClient) ∧
      ((Router.Resolve literalLib twoRuleRouter sampleQuery sampleClient []).a,
        (Router.Resolve literalLib twoRuleRouter sampleQuery sampleClient []).err) =
        ((twoRuleRouter.routes.get ⟨i, hi⟩).resolver.Resolve sampleQuery sampleClient []).1 ∧
      (Router.Resolve literalLib twoRuleRouter sampleQuery sampleClient []).world =
        ((twoRuleRouter.routes.get ⟨i, hi⟩).resolver.Resolve sampleQuery sampleClient []).2 :=
  ⟨rfl, ⟨twoRuleRouter.routes.get ⟨1, by decide⟩, List.get_mem _ _ _, by decide⟩, by decide,
    Resolve_dispatches_to_first_satisfied literalLib twoRuleRouter sampleQuery sampleClient []
      { Name := "example.com.", Qtype := 1, Qclass := 1 } [] rfl
      ⟨twoRuleRouter.routes.get ⟨1, by decide⟩, List.get_mem _ _ _, by decide⟩⟩

/-- C2: on a query without a question `Resolve` returns a nil response and the
error "no question in query"; no target is called (the world is untouched) and
the router, with its route and failure counters, is unchanged. -/
theorem Resolve_empty_question {σ : Type} (lib : Lib) (r : Router σ) (q : Msg) (ci : ClientInfo)
    (w : σ) (hq : q.Question = []) :
    (Router.Resolve lib r q ci w).a = none ∧
    (Router.Resolve lib r q ci w).err = some Error.InvalidQuery ∧
    Error.message Error.InvalidQuery = "no question in query" ∧
    (Router.Resolve lib r q ci w).world = w ∧
    (Router.Resolve lib r q ci w).router = r := by
  unfold Router.Resolve
  rw [hq]
  exact ⟨rfl, rfl, rfl, rfl, rfl⟩

/-- Witness of C2 on `emptyQuery` and the two-rule router. -/
theorem Resolve_empty_question_witness :
    emptyQuery.Question = [] ∧
    (Router.Resolve literalLib twoRuleRouter emptyQuery sampleClient []).a = none ∧
    (Router.Resolve literalLib twoRuleRouter emptyQuery sampleClient []).err =
      some Error.InvalidQuery ∧
    Error.message Error.InvalidQuery = "no question in query" ∧
    (Router.Resolve literalLib twoRuleRouter emptyQuery sampleClient []).world = [] ∧
    (Router.Resolve literalLib twoRuleRouter emptyQuery sampleClient []).router = twoRuleRouter :=
  ⟨rfl, Resolve_empty_question literalLib twoRuleRouter emptyQuery sampleClient [] rfl⟩

/-- C3, the claim as stated fails: the only rule of `nestedRouter` is satisfied
by the question of `sampleQuery`, its target (a router without rules) is called
and counted, and yet `Resolve` returns a nil response with the error "no route
for" the first question, because it returns what the target returned. -/
theorem Resolve_NoRoute_with_satisfied_rule :
    sampleQuery.Question = [{ Name := "example.com.", Qtype := 1, Qclass := 1 }] ∧
    (Router.Resolve literalLib nestedRouter sampleQuery sampleClient []).a = none ∧
    (Router.Resolve literalLib nestedRouter sampleQuery sampleClient []).err =
      some (Error.NoRoute
        (literalLib.questionString { Name := "example.com.", Qtype := 1, Qclass := 1 })) ∧
    ¬ (∀ rt ∈ nestedRouter.routes,
        ¬ Satisfied rt { Name := "example.com.", Qtype := 1, Qclass := 1 } sampleClient) ∧
    nestedRouter.metrics.route "inner" = 0 ∧
    (Router.Resolve literalLib nestedRouter sampleQuery sampleClient []).router.metrics.route
      "inner" = 1 := by
  refine ⟨rfl, by decide, by decide, ?_, by decide, by decide⟩
  intro h
  exact h (nestedRouter.routes.get ⟨0, by decide⟩) (List.get_mem _ _ _) (by decide)

/-- C3, amended: for every router and every query with at least one question,
if no rule is satisfied by the first question and the client's source then
`Resolve` returns a nil response and the error "no route for" followed by the
description of the first question, calls no target and changes nothing in the
router; `Resolve` returns that result with the route counters unchanged if and
only if no rule is satisfied; and a freshly constructed router returns it for
every such query. -/
theorem Resolve_no_route {σ : Type} (lib : Lib) (r : Router σ) (q : Msg) (ci : ClientInfo)
    (w : σ) (question : Question) (rest : List Question) (hq : q.Question = question :: rest) :
    ((∀ rt ∈ r.routes, ¬ Satisfied rt question ci) →
      (Router.Resolve lib r q ci w).a = none ∧
      (Router.Resolve lib r q ci w).err = some (Error.NoRoute (lib.questionString question)) ∧
      Error.message (Error.NoRoute (lib.questionString question)) =
        "no route for " ++ lib.questionString question ∧
      (Router.Resolve lib r q ci w).world = w ∧
      (Router.Resolve lib r q ci w).router = r) ∧
    (((Router.Resolve lib r q ci w).a = none ∧
      (Router.Resolve lib r q ci w).err = some (Error.NoRoute (lib.questionString question)) ∧
      (Router.Resolve lib r q ci w).router.metrics.route = r.metrics.route) ↔
      ∀ rt ∈ r.routes, ¬ Satisfied rt question ci) ∧
    (∀ (reg : Registry) (id : String),
      (Router.Resolve lib (NewRouter reg id : Router σ) q ci w).a = none ∧
      (Router.Resolve lib (NewRouter reg id : Router σ) q ci w).err =
        some (Error.NoRoute (lib.questionString question)) ∧
      (Router.Resolve lib (NewRouter reg id : Router σ) q ci w).world = w) := by
  have hnone : (∀ rt ∈ r.routes, ¬ Satisfied rt question ci) →
      Router.Resolve lib r q ci w =
        { a := none, err := some (Error.NoRoute (lib.questionString question)),
          router := r, world := w } := by
    intro h
    rw [Resolve_of_question lib r q ci w question rest hq]
    exact resolveLoop_of_none_satisfied lib r q question ci w r.routes h
  refine ⟨?_, ⟨?_, ?_⟩, ?_⟩
  · intro h
    rw [hnone h]
    exact ⟨rfl, rfl, rfl, rfl, rfl⟩
  · rintro ⟨_, _, hroute⟩ rt hmem hsat
    obtain ⟨i, hi, _, _, hres⟩ :=
      resolveLoop_first_satisfied lib r q question ci w r.routes ⟨rt, hmem, hsat⟩
    rw [Resolve_of_question lib r q ci w question rest hq, hres, dispatch_route] at hroute
    exact mapAdd_one_ne _ _ hroute
  · intro h
    rw [hnone h]
    exact ⟨rfl, rfl, rfl⟩
  · intro reg id
    rw [Resolve_of_question lib (NewRouter reg id) q ci w question rest hq]
    exact ⟨rfl, rfl, rfl⟩

/-- Witness of C3 (amended) on a router whose only rule wants class CH, and
`sampleQuery`, whose question has class IN. -/
theorem Resolve_no_route_witness :
    sampleQuery.Question = { Name := "example.com.", Qtype := 1, Qclass := 1 } :: [] ∧
    (Router.Resolve literalLib
      (Router.Add literalLib (NewRouter zeroRegistry "r") "" "CH" "" "" (okTarget "R1")).2
      sampleQuery sampleClient []).err = some (Error.NoRoute ";example.com.\tIN\t A") ∧
    (Router.Resolve literalLib
      (Router.Add literalLib (NewRouter zeroRegistry "r") "" "CH" "" "" (okTarget "R1")).2
      sampleQuery sampleClient []).world = [] :=
  ⟨rfl,
    ((Resolve_no_route literalLib
      (Router.Add literalLib (NewRouter zeroRegistry "r") "" "CH" "" "" (okTarget "R1")).2
      sampleQuery sampleClient [] { Name := "example.com.", Qtype := 1, Qclass := 1 } [] rfl).1
      (by decide)).2.1,
    ((Resolve_no_route literalLib
      (Router.Add literalLib (NewRouter zeroRegistry "r") "" "CH" "" "" (okTarget "R1")).2
      sampleQuery sampleClient [] { Name := "example.com.", Qtype := 1, Qclass := 1 } [] rfl).1
      (by decide)).2.2.2.1⟩

/-- C4: when `Resolve` selects a rule (the rules before it are not satisfied,
the rule is), the pair it returns and the world it leaves are exactly those of
one call of that rule's target with the same query and client info; in
particular an error of the target is returned as it is and no rule after the
selected one is tried, whatever those rules are. -/
theorem Resolve_returns_target_result {σ : Type} (lib : Lib) (r : Router σ) (q : Msg)
    (ci : ClientInfo) (w : σ) (question : Question) (rest : List Question)
    (pre post : List (route σ)) (rt : route σ)
    (hq : q.Question = question :: rest)
    (hroutes : r.routes = pre ++ rt :: post)
    (hpre : ∀ x ∈ pre, ¬ Satisfied x question ci)
    (hrt : Satisfied rt question ci) :
    ((Router.Resolve lib r q ci w).a, (Router.Resolve lib r q ci w).err) =
      (rt.resolver.Resolve q ci w).1 ∧
    (Router.Resolve lib r q ci w).world = (rt.resolver.Resolve q ci w).2 ∧
    (∀ e : Error, (rt.resolver.Resolve q ci w).1.2 = some e →
      (Router.Resolve lib r q ci w).err = some e ∧
      (Router.Resolve lib r q ci w).a = (rt.resolver.Resolve q ci w).1.1 ∧
      (Router.Resolve lib r q ci w).world = (rt.resolver.Resolve q ci w).2) := by
  have hres : Router.Resolve lib r q ci w = Router.dispatch r rt q ci w := by
    rw [Resolve_of_question lib r q ci w question rest hq, hroutes]
    exact resolveLoop_append_of_satisfied lib r q question ci w pre post rt hpre hrt
  rw [hres]
  refine ⟨rfl, rfl, ?_⟩
  intro e he
  exact ⟨he, rfl, rfl⟩

/-- Witness of C4 on the two-rule router: the first rule is selected, its target
R1 fails; the second rule is satisfied too and its target R2 would answer, but
the error of R1 is returned and R1 is the only target called. -/
theorem Resolve_returns_target_result_witness :
    sampleQuery.Question = { Name := "example.com.", Qtype := 1, Qclass := 1 } :: [] ∧
    twoRuleRouter.routes =
      [] ++ { typ := 1, «class» := 1, name := literalRegexp "example", source := none,
              resolver := failTarget "R1" } ::
        [{ typ := 0, «class» := 0, name := literalRegexp "", source := none,
           resolver := okTarget "R2" }] ∧
    Satisfied ({ typ := 0, «class» := 0, name := literalRegexp "", source := none,
                 resolver := okTarget "R2" } : route (List String))
      { Name := "example.com.", Qtype := 1, Qclass := 1 } sampleClient ∧
    (Router.Resolve literalLib twoRuleRouter sampleQuery sampleClient []).err =
      some (Error.other "upstream failure") ∧
    (Router.Resolve literalLib twoRuleRouter sampleQuery sampleClient []).a = none ∧
    (Router.Resolve literalLib twoRuleRouter sampleQuery sampleClient []).world = ["R1"] :=
  ⟨rfl, rfl, by decide,
    (Resolve_returns_target_result literalLib twoRuleRouter sampleQuery sampleClient []
      { Name := "example.com.", Qtype := 1, Qclass := 1 } [] []
      [{ typ := 0, «class» := 0, name := literalRegexp "", source := none,
         resolver := okTarget "R2" }]
      { typ := 1, «class» := 1, name := literalRegexp "example", source := none,
        resolver := failTarget "R1" }
      rfl rfl (by simp) (by decide)).2.2 (Error.other "upstream failure") rfl⟩

/-- C5: when `Resolve` selects a rule whose target has display name `n`, the
route counter of `n` grows by exactly 1, the failure counter of `n` grows by
exactly 1 if the target returned an error and keeps its value otherwise, and
the route and failure counters of every other key, the available gauge and the
rule sequence are unchanged. -/
theorem Resolve_counters {σ : Type} (lib : Lib) (r : Router σ) (q : Msg)
    (ci : ClientInfo) (w : σ) (question : Question) (rest : List Question)
    (pre post : List (route σ)) (rt : route σ)
    (hq : q.Question = question :: rest)
    (hroutes : r.routes = pre ++ rt :: post)
    (hpre : ∀ x ∈ pre, ¬ Satisfied x question ci)
    (hrt : Satisfied rt question ci) :
    (Router.Resolve lib r q ci w).router.metrics.route rt.resolver.String =
      r.metrics.route rt.resolver.String + 1 ∧
    (Router.Resolve lib r q ci w).router.metrics.failure rt.resolver.String =
      r.metrics.failure rt.resolver.String +
        (if ((rt.resolver.Resolve q ci w).1.2).isSome then 1 else 0) ∧
    (∀ k : String, k ≠ rt.resolver.String →
      (Router.Resolve lib r q ci w).router.metrics.route k = r.metrics.route k ∧
      (Router.Resolve lib r q ci w).router.metrics.failure k = r.metrics.failure k) ∧
    (Router.Resolve lib r q ci w).router.metrics.available = r.metrics.available ∧
    (Router.Resolve lib r q ci w).router.routes = r.routes := by
  have hres : Router.Resolve lib r q ci w = Router.dispatch r rt q ci w := by
    rw [Resolve_of_question lib r q ci w question rest hq, hroutes]
    exact resolveLoop_append_of_satisfied lib r q question ci w pre post rt hpre hrt
  rw [hres, dispatch_route, dispatch_failure]
  obtain ⟨havail, hrules, _⟩ := dispatch_frame r rt q ci w
  refine ⟨by simp [mapAdd], by simp [mapAdd], ?_, havail, hrules⟩
  intro k hk
  simp [mapAdd, hk]

/-- Witness of C5 on the two-rule router: R1 is selected and fails, so its route
and failure counters go from 0 to 1. -/
theorem Resolve_counters_witness :
    sampleQuery.Question = { Name := "example.com.", Qtype := 1, Qclass := 1 } :: [] ∧
    (Router.Resolve literalLib twoRuleRouter sampleQuery sampleClient []).router.metrics.route
      "R1" = twoRuleRouter.metrics.route "R1" + 1 ∧
    (Router.Resolve literalLib twoRuleRouter sampleQuery sampleClient []).router.metrics.failure
      "R1" = twoRuleRouter.metrics.failure "R1" + 1 :=
  ⟨rfl,
    (Resolve_counters literalLib twoRuleRouter sampleQuery sampleClient []
      { Name := "example.com.", Qtype := 1, Qclass := 1 } [] []
      [{ typ := 0, «class» := 0, name := literalRegexp "", source := none,
         resolver := okTarget "R2" }]
      { typ := 1, «class» := 1, name := literalRegexp "example", source := none,
        resolver := failTarget "R1" }
      rfl rfl (by simp) (by decide)).1,
    (Resolve_counters literalLib twoRuleRouter sampleQuery sampleClient []
      { Name := "example.com.", Qtype := 1, Qclass := 1 } [] []
      [{ typ := 0, «class» := 0, name := literalRegexp "", source := none,
         resolver := okTarget "R2" }]
      { typ := 1, «class» := 1, name := literalRegexp "example", source := none,
        resolver := failTarget "R1" }
      rfl rfl (by simp) (by decide)).2.1⟩

/-! ## Properties of `Add` -/

/-- C6: if `Add` returns an error, whichever it is, the router afterwards is the
router before: the rule sequence and the available gauge are what they were. -/
theorem Add_error_leaves_router {σ : Type} (lib : Lib) (r : Router σ)
    (name «class» typ source : String) (resolver : Resolver σ) (e : Error)
    (h : (Router.Add lib r name «class» typ source resolver).1 = some e) :
    (Router.Add lib r name «class» typ source resolver).2 = r ∧
    (Router.Add lib r name «class» typ source resolver).2.routes = r.routes ∧
    (Router.Add lib r name «class» typ source resolver).2.metrics.available =
      r.metrics.available := by
  rcases Add_cases lib r name «class» typ source resolver with ⟨e', he⟩ | ⟨_, _, _, _, _, _, _, _, hok⟩
  · rw [he]
    exact ⟨rfl, rfl, rfl⟩
  · rw [hok] at h
    cases h

/-- Witness of C6: a source that is no network literal, on a router that has one
rule already. -/
theorem Add_error_leaves_router_witness :
    (Router.Add literalLib oneRuleRouter "example" "IN" "A" "not-a-network" (okTarget "R2")).1 =
      some (Error.other "invalid CIDR address: not-a-network") ∧
    (Router.Add literalLib oneRuleRouter "example" "IN" "A" "not-a-network" (okTarget "R2")).2 =
      oneRuleRouter ∧
    (Router.Add literalLib oneRuleRouter "example" "IN" "A" "not-a-network"
      (okTarget "R2")).2.routes = oneRuleRouter.routes ∧
    (Router.Add literalLib oneRuleRouter "example" "IN" "A" "not-a-network"
      (okTarget "R2")).2.metrics.available = oneRuleRouter.metrics.available :=
  ⟨by decide,
    Add_error_leaves_router literalLib oneRuleRouter "example" "IN" "A" "not-a-network"
      (okTarget "R2") (Error.other "invalid CIDR address: not-a-network") (by decide)⟩

/-- C7: if `Add(name, class, typ, source, resolver)` succeeds, the rule
sequence afterwards is the sequence before followed by one rule, whose type is
`stringToType(typ)`, whose class is `stringToClass(class)`, whose name is the
pattern compiled from `name`, whose source is nil when `source` is empty and the
network parsed from `source` otherwise, and whose resolver is `resolver`; the
available gauge has grown by exactly 1. -/
theorem Add_success_appends {σ : Type} (lib : Lib) (r : Router σ)
    (name «class» typ source : String) (resolver : Resolver σ)
    (h : (Router.Add lib r name «class» typ source resolver).1 = none) :
    ∃ (t c : Nat) (re : Regexp) (sNet : Option IPNet),
      stringToType lib.TypeToString typ = .ok t ∧
      stringToClass «class» = .ok c ∧
      lib.regexpCompile name = .ok re ∧
      ((source = "" ∧ sNet = none) ∨
        (source ≠ "" ∧ ∃ n : IPNet, lib.ParseCIDR source = .ok n ∧ sNet = some n)) ∧
      (Router.Add lib r name «class» typ source resolver).2.routes =
        r.routes ++
          [{ typ := t, «class» := c, name := re, source := sNet, resolver := resolver }] ∧
      (Router.Add lib r name «class» typ source resolver).2.metrics.available =
        r.metrics.available + 1 := by
  rcases Add_cases lib r name «class» typ source resolver with
    ⟨e, he⟩ | ⟨t, c, re, sNet, h1, h2, h3, h4, hok⟩
  · rw [he] at h
    cases h
  · refine ⟨t, c, re, sNet, h1, h2, h3, h4, ?_, ?_⟩
    · rw [hok]
    · rw [hok]

/-- Witness of C7: the second rule of a router. -/
theorem Add_success_appends_witness :
    (Router.Add literalLib oneRuleRouter "example" "IN" "A" "" (okTarget "R2")).1 = none ∧
    ∃ (t c : Nat) (re : Regexp) (sNet : Option IPNet),
      stringToType literalLib.TypeToString "A" = .ok t ∧
      stringToClass "IN" = .ok c ∧
      literalLib.regexpCompile "example" = .ok re ∧
      (("" = "" ∧ sNet = none) ∨
        ("" ≠ "" ∧ ∃ n : IPNet, literalLib.ParseCIDR "" = .ok n ∧ sNet = some n)) ∧
      (Router.Add literalLib oneRuleRouter "example" "IN" "A" "" (okTarget "R2")).2.routes =
        oneRuleRouter.routes ++
          [{ typ := t, «class» := c, name := re, source := sNet, resolver := okTarget "R2" }] ∧
      (Router.Add literalLib oneRuleRouter "example" "IN" "A" "" (okTarget "R2")).2.metrics.available =
        oneRuleRouter.metrics.available + 1 :=
  ⟨by decide,
    Add_success_appends literalLib oneRuleRouter "example" "IN" "A" "" (okTarget "R2")
      (by decide)⟩

/-! ## Properties of the mnemonic translations -/

/-- C8: `stringToClass` maps "" to 0, "IN" to 1, "CH" to 3, "HS" to 4, "NONE" to
254 and "ANY" to 255; it succeeds if and only if its input is one of these six
strings, and on every other string (a lower-case spelling for instance) it
returns the error "unknown class" for that string. -/
theorem stringToClass_spec :
    stringToClass "" = .ok 0 ∧
    stringToClass "IN" = .ok 1 ∧
    stringToClass "CH" = .ok 3 ∧
    stringToClass "HS" = .ok 4 ∧
    stringToClass "NONE" = .ok 254 ∧
    stringToClass "ANY" = .ok 255 ∧
    stringToClass "in" = .error (Error.UnknownClass "in") ∧
    (∀ s : String, (∃ c : Nat, stringToClass s = .ok c) ↔
      s ∈ ["", "IN", "CH", "HS", "NONE", "ANY"]) ∧
    (∀ s : String, stringToClass s = .error (Error.UnknownClass s) ↔
      s ∉ ["", "IN", "CH", "HS", "NONE", "ANY"]) := by
  refine ⟨rfl, rfl, rfl, rfl, rfl, rfl, rfl, ?_, ?_⟩
  · intro s
    unfold stringToClass
    constructor
    · rintro ⟨c, hc⟩
      split_ifs at hc <;> simp_all
    · intro hs
      simp only [List.mem_cons, List.mem_singleton, List.not_mem_nil, or_false] at hs
      rcases hs with h | h | h | h | h | h <;> subst h <;> simp
  · intro s
    unfold stringToClass
    constructor
    · intro hs
      split_ifs at hs
      simp_all
    · intro hs
      simp only [List.mem_cons, List.mem_singleton, List.not_mem_nil, or_false, not_or] at hs
      obtain ⟨h0, h1, h2, h3, h4, h5⟩ := hs
      rw [if_neg h0, if_neg h1, if_neg h2, if_neg h3, if_neg h4, if_neg h5]

/-- C9: over a type table whose mnemonics are pairwise distinct, enumerated in
any order, `stringToType` maps "" to 0; for a non-empty string `s` it succeeds
with code `k` exactly when the table maps `k` to `s`, so that "A" gives 1,
"AAAA" gives 28 and "MX" gives 15 for a table with these entries; and it
returns the error "unknown type" exactly when `s` is non-empty and no entry of
the table has mnemonic `s`. -/
theorem stringToType_spec (table order : List (Nat × String))
    (horder : order.Perm table) (hinj : (table.map Prod.snd).Nodup) :
    stringToType order "" = .ok 0 ∧
    (∀ (s : String) (k : Nat), s ≠ "" → (stringToType order s = .ok k ↔ (k, s) ∈ table)) ∧
    ((1, "A") ∈ table → stringToType order "A" = .ok 1) ∧
    ((28, "AAAA") ∈ table → stringToType order "AAAA" = .ok 28) ∧
    ((15, "MX") ∈ table → stringToType order "MX" = .ok 15) ∧
    (∀ s : String, stringToType order s = .error (Error.UnknownType s) ↔
      (s ≠ "" ∧ ∀ k : Nat, (k, s) ∉ table)) := by
  have hinj' : (order.map Prod.snd).Nodup := (horder.map Prod.snd).nodup_iff.mpr hinj
  have hiff : ∀ (s : String) (k : Nat), s ≠ "" →
      (stringToType order s = .ok k ↔ (k, s) ∈ table) := by
    intro s k hs
    unfold stringToType
    rw [if_neg hs]
    constructor
    · intro h
      exact horder.mem_iff.mp (scan_ok_mem s order k h)
    · intro h
      exact scan_of_mem_nodup s order k (horder.mem_iff.mpr h) hinj'
  refine ⟨rfl, hiff, ?_, ?_, ?_, ?_⟩
  · intro h
    exact (hiff "A" 1 (by decide)).mpr h
  · intro h
    exact (hiff "AAAA" 28 (by decide)).mpr h
  · intro h
    exact (hiff "MX" 15 (by decide)).mpr h
  · intro s
    constructor
    · intro h
      unfold stringToType at h
      by_cases hs : s = ""
      · rw [if_pos hs] at h
        cases h
      · rw [if_neg hs] at h
        exact ⟨hs, fun k hk => (scan_error s order _ h).2 k (horder.mem_iff.mpr hk)⟩
    · rintro ⟨hs, hnot⟩
      unfold stringToType
      rw [if_neg hs]
      cases hscan : stringToType.scan s order with
      | error e => rw [(scan_error s order e hscan).1]
      | ok k => exact absurd (horder.mem_iff.mp (scan_ok_mem s order k hscan)) (hnot k)

/-- Witness of C9: the standard table enumerated backwards. -/
theorem stringToType_spec_witness :
    TypeToString.reverse.Perm TypeToString ∧
    (TypeToString.map Prod.snd).Nodup ∧
    stringToType TypeToString.reverse "" = .ok 0 ∧
    stringToType TypeToString.reverse "A" = .ok 1 ∧
    stringToType TypeToString.reverse "AAAA" = .ok 28 ∧
    stringToType TypeToString.reverse "MX" = .ok 15 ∧
    stringToType TypeToString.reverse "a" = .error (Error.UnknownType "a") :=
  ⟨List.reverse_perm TypeToString, by decide,
    (stringToType_spec TypeToString TypeToString.reverse (List.reverse_perm TypeToString)
      (by decide)).1,
    (stringToType_spec TypeToString TypeToString.reverse (List.reverse_perm TypeToString)
      (by decide)).2.2.1 (by decide),
    (stringToType_spec TypeToString TypeToString.reverse (List.reverse_perm TypeToString)
      (by decide)).2.2.2.1 (by decide),
    (stringToType_spec TypeToString TypeToString.reverse (List.reverse_perm TypeToString)
      (by decide)).2.2.2.2.1 (by decide),
    ((stringToType_spec TypeToString TypeToString.reverse (List.reverse_perm TypeToString)
      (by decide)).2.2.2.2.2 "a").mpr
      ⟨by decide, fun _ hk =>
        (by decide : "a" ∉ TypeToString.map Prod.snd) (List.mem_map_of_mem Prod.snd hk)⟩⟩

/-! ## The available gauge -/

/-- C10: in every state reachable from `NewRouter(id)` by `Add` calls (failing
or not) and `Resolve` calls, the available gauge equals the number of rules of
the router; directly after `NewRouter` both are 0. -/
theorem available_eq_length {σ : Type} (lib : Lib) (reg : Registry) (id : String)
    (r : Router σ) (h : Reachable lib reg id r) :
    r.metrics.available = (r.routes.length : Int) ∧
    (NewRouter reg id : Router σ).metrics.available = 0 ∧
    (NewRouter reg id : Router σ).routes.length = 0 := by
  refine ⟨?_, rfl, rfl⟩
  induction h with
  | init => rfl
  | @add r _ name cls typ source resolver ih =>
    rcases Add_cases lib r name cls typ source resolver with
      ⟨e, he⟩ | ⟨t, c, re, sNet, _, _, _, _, hok⟩
    · rw [he]
      exact ih
    · rw [hok]
      simp only [List.length_append, List.length_singleton, Nat.cast_add, Nat.cast_one]
      rw [ih]
  | @resolve r _ q ci w ih =>
    rw [(Resolve_frame lib r q ci w).1, (Resolve_frame lib r q ci w).2]
    exact ih

/-- Witness of C10: the state after two successful `Add` calls, a failing one
and a `Resolve` call. -/
theorem available_eq_length_witness :
    Reachable literalLib zeroRegistry "r"
      (Router.Resolve literalLib
        (Router.Add literalLib twoRuleRouter "" "" "BOGUS" "" (okTarget "R3")).2
        sampleQuery sampleClient []).router ∧
    (Router.Resolve literalLib
        (Router.Add literalLib twoRuleRouter "" "" "BOGUS" "" (okTarget "R3")).2
        sampleQuery sampleClient []).router.metrics.available = 2 ∧
    (Router.Resolve literalLib
        (Router.Add literalLib twoRuleRouter "" "" "BOGUS" "" (okTarget "R3")).2
        sampleQuery sampleClient []).router.routes.length = 2 :=
  ⟨Reachable.resolve
      (Reachable.add
        (Reachable.add (Reachable.add Reachable.init "example" "IN" "A" "" (failTarget "R1"))
          "" "" "" "" (okTarget "R2"))
        "" "" "BOGUS" "" (okTarget "R3"))
      sampleQuery sampleClient [],
    (available_eq_length literalLib zeroRegistry "r" _
      (Reachable.resolve
        (Reachable.add
          (Reachable.add (Reachable.add Reachable.init "example" "IN" "A" "" (failTarget "R1"))
            "" "" "" "" (okTarget "R2"))
          "" "" "BOGUS" "" (okTarget "R3"))
        sampleQuery sampleClient [])).1,
    by decide⟩

/-! ## Wildcard rules -/

/-- C11: if the first rule added to a router is `Add("", "", "", "", T)`, then
the call succeeds and, whatever `Add` and `Resolve` calls follow, every query
with at least one question from every client is dispatched to `T`: the pair
returned and the world left are those of one call of `T`, so no target of a
later rule is called.  The library fact used is that the empty pattern compiles
and matches every name. -/
theorem wildcard_first_dispatches_to_T {σ : Type} (lib : Lib) (reg : Registry) (id : String)
    (T : Resolver σ) (r : Router σ) (q : Msg) (ci : ClientInfo) (w : σ)
    (question : Question) (rest : List Question)
    (hlib : EmptyPatternMatchesAll lib)
    (hsteps : Steps lib (Router.Add lib (NewRouter reg id) "" "" "" "" T).2 r)
    (hq : q.Question = question :: rest) :
    (Router.Add lib (NewRouter reg id : Router σ) "" "" "" "" T).1 = none ∧
    ((Router.Resolve lib r q ci w).a, (Router.Resolve lib r q ci w).err) =
      (T.Resolve q ci w).1 ∧
    (Router.Resolve lib r q ci w).world = (T.Resolve q ci w).2 := by
  obtain ⟨re, hre, hall⟩ := hlib
  have hadd := Add_wildcard lib (NewRouter reg id : Router σ) T re hre
  obtain ⟨extra, hextra⟩ := Steps_routes lib _ r hsteps
  rw [hadd] at hextra
  have hroutes : r.routes =
      [] ++ ({ typ := 0, «class» := 0, name := re, source := none, resolver := T } : route σ)
        :: extra := by
    rw [hextra]
    rfl
  have hres : Router.Resolve lib r q ci w =
      Router.dispatch r { typ := 0, «class» := 0, name := re, source := none, resolver := T }
        q ci w := by
    rw [Resolve_of_question lib r q ci w question rest hq, hroutes]
    exact resolveLoop_append_of_satisfied lib r q question ci w [] extra _
      (fun x hx => by cases hx) (wildcard_satisfied T re hall question ci)
  rw [hadd, hres]
  exact ⟨rfl, rfl, rfl⟩

/-- Witness of C11: the second rule of `wildcardFirstRouter` is satisfied by
`example.com. IN A` as well, but only `T` is called. -/
theorem wildcard_first_dispatches_to_T_witness :
    EmptyPatternMatchesAll stdLib ∧
    Steps stdLib (Router.Add stdLib (NewRouter zeroRegistry "r") "" "" "" "" (okTarget "T")).2
      wildcardFirstRouter ∧
    sampleQuery.Question = { Name := "example.com.", Qtype := 1, Qclass := 1 } :: [] ∧
    (Router.Resolve stdLib wildcardFirstRouter sampleQuery sampleClient []).world = ["T"] ∧
    (Router.Resolve stdLib wildcardFirstRouter sampleQuery sampleClient []).err = none :=
  ⟨stdLib_empty_pattern,
    Steps.add Steps.refl "example" "IN" "A" "" (okTarget "R2"),
    rfl,
    (wildcard_first_dispatches_to_T stdLib zeroRegistry "r" (okTarget "T") wildcardFirstRouter
      sampleQuery sampleClient [] { Name := "example.com.", Qtype := 1, Qclass := 1 } []
      stdLib_empty_pattern (Steps.add Steps.refl "example" "IN" "A" "" (okTarget "R2")) rfl).2.2,
    congrArg Prod.snd
      (wildcard_first_dispatches_to_T stdLib zeroRegistry "r" (okTarget "T") wildcardFirstRouter
        sampleQuery sampleClient [] { Name := "example.com.", Qtype := 1, Qclass := 1 } []
        stdLib_empty_pattern (Steps.add Steps.refl "example" "IN" "A" "" (okTarget "R2"))
        rfl).2.1⟩

/-- C12, the claim as stated fails: the last rule added to
`defaultToEmptyRouter` is `Add("", "", "", "", inner)`, the call succeeds, and
for `sampleQuery` the router returns a nil response and the error "no route for"
the question: it is what the target `inner`, a router without rules, returned. -/
theorem default_last_returns_NoRoute :
    (Router.Add stdLib chaosOnlyRouter "" "" "" ""
      (Router.asResolver stdLib (NewRouter zeroRegistry "inner"))).1 = none ∧
    sampleQuery.Question = [{ Name := "example.com.", Qtype := 1, Qclass := 1 }] ∧
    (Router.Resolve stdLib defaultToEmptyRouter sampleQuery sampleClient []).a = none ∧
    (Router.Resolve stdLib defaultToEmptyRouter sampleQuery sampleClient []).err =
      some (Error.NoRoute
        (stdLib.questionString { Name := "example.com.", Qtype := 1, Qclass := 1 })) := by
  exact ⟨by decide, rfl, by decide, by decide⟩

/-- C12, amended: if the last rule added to a router is `Add("", "", "", "", T)`,
then for every query with at least one question `Resolve` selects a rule (it
never leaves through the no-route exit: it returns what the selected rule's
target returned and counts the route); it dispatches through the last rule to
`T` when none of the earlier rules is satisfied, and to the first satisfied
earlier rule otherwise.  The library fact used is that the empty pattern
compiles and matches every name. -/
theorem default_last_selects {σ : Type} (lib : Lib) (r' : Router σ) (T : Resolver σ)
    (q : Msg) (ci : ClientInfo) (w : σ) (question : Question) (rest : List Question)
    (hlib : EmptyPatternMatchesAll lib)
    (hq : q.Question = question :: rest) :
    (Router.Add lib r' "" "" "" "" T).1 = none ∧
    (∃ rt ∈ (Router.Add lib r' "" "" "" "" T).2.routes,
      Satisfied rt question ci ∧
      ((Router.Resolve lib (Router.Add lib r' "" "" "" "" T).2 q ci w).a,
        (Router.Resolve lib (Router.Add lib r' "" "" "" "" T).2 q ci w).err) =
        (rt.resolver.Resolve q ci w).1 ∧
      (Router.Resolve lib (Router.Add lib r' "" "" "" "" T).2 q ci w).world =
        (rt.resolver.Resolve q ci w).2 ∧
      (Router.Resolve lib (Router.Add lib r' "" "" "" "" T).2 q ci w).router.metrics.route
        rt.resolver.String = r'.metrics.route rt.resolver.String + 1) ∧
    ((∀ rt ∈ r'.routes, ¬ Satisfied rt question ci) →
      ((Router.Resolve lib (Router.Add lib r' "" "" "" "" T).2 q ci w).a,
        (Router.Resolve lib (Router.Add lib r' "" "" "" "" T).2 q ci w).err) =
        (T.Resolve q ci w).1 ∧
      (Router.Resolve lib (Router.Add lib r' "" "" "" "" T).2 q ci w).world =
        (T.Resolve q ci w).2) ∧
    ((∃ rt ∈ r'.routes, Satisfied rt question ci) →
      ∃ (i : Nat) (hi : i < r'.routes.length),
        Satisfied (r'.routes.get ⟨i, hi⟩) question ci ∧
        (∀ (j : Nat) (hj : j < r'.routes.length), j < i →
          ¬ Satisfied (r'.routes.get ⟨j, hj⟩) question ci) ∧
        ((Router.Resolve lib (Router.Add lib r' "" "" "" "" T).2 q ci w).a,
          (Router.Resolve lib (Router.Add lib r' "" "" "" "" T).2 q ci w).err) =
          ((r'.routes.get ⟨i, hi⟩).resolver.Resolve q ci w).1 ∧
        (Router.Resolve lib (Router.Add lib r' "" "" "" "" T).2 q ci w).world =
          ((r'.routes.get ⟨i, hi⟩).resolver.Resolve q ci w).2) := by
  obtain ⟨re, hre, hall⟩ := hlib
  rw [Add_wildcard lib r' T re hre]
  obtain ⟨hsel, hnone, hsome⟩ :=
    Resolve_last_satisfied lib
      { r' with
        routes := r'.routes ++
          [{ typ := 0, «class» := 0, name := re, source := none, resolver := T }]
        metrics := { r'.metrics with available := r'.metrics.available + 1 } }
      q ci w question rest r'.routes
      { typ := 0, «class» := 0, name := re, source := none, resolver := T }
      hq rfl (wildcard_satisfied T re hall question ci)
  refine ⟨rfl, ?_, ?_, ?_⟩
  · obtain ⟨rt, hmem, hsat, hres⟩ := hsel
    refine ⟨rt, hmem, hsat, ?_, ?_, ?_⟩
    · rw [hres]
      rfl
    · rw [hres]
      rfl
    · rw [hres]
      exact dispatch_route_self _ rt q ci w
  · intro h
    rw [hnone h]
    exact ⟨rfl, rfl⟩
  · intro h
    obtain ⟨i, hi, hsat, hmin, hres⟩ := hsome h
    refine ⟨i, hi, hsat, hmin, ?_, ?_⟩
    · rw [hres]
      rfl
    · rw [hres]
      rfl

/-- Witness of C12 (amended): the rule of `chaosOnlyRouter` wants class CH, the
question of `sampleQuery` has class IN, so the last rule dispatches to `T`. -/
theorem default_last_selects_witness :
    EmptyPatternMatchesAll stdLib ∧
    sampleQuery.Question = { Name := "example.com.", Qtype := 1, Qclass := 1 } :: [] ∧
    (Router.Resolve stdLib (Router.Add stdLib chaosOnlyRouter "" "" "" "" (okTarget "T")).2
      sampleQuery sampleClient []).world = ["T"] :=
  ⟨stdLib_empty_pattern, rfl,
    ((default_last_selects stdLib chaosOnlyRouter (okTarget "T") sampleQuery sampleClient []
      { Name := "example.com.", Qtype := 1, Qclass := 1 } [] stdLib_empty_pattern rfl).2.2.1
      (by decide)).2⟩

/-- C13, the code at the failing inputs: the rule made by
`Add("", "CH", "", "", R1)` and the rule made by `Add("", "", "", "10.0.0.0/8", R1)`
are default rules for `isDefault` and are labelled "default->R1", but the first
is not satisfied by a question of class IN and the second is not satisfied by a
client at 8.8.8.8; `Resolve` finds no route for them. -/
theorem isDefault_rule_not_satisfied :
    chaosOnlyRouter.routes.map route.isDefault = [true] ∧
    chaosOnlyRouter.routes.map (route.String (typeString TypeToString)) = ["default->R1"] ∧
    (∀ rt ∈ chaosOnlyRouter.routes,
      ¬ Satisfied rt { Name := "example.com.", Qtype := 1, Qclass := 1 } sampleClient) ∧
    (Router.Resolve stdLib chaosOnlyRouter sampleQuery sampleClient []).err =
      some (Error.NoRoute ";example.com.\tIN\t A") ∧
    (Router.Resolve stdLib chaosOnlyRouter sampleQuery sampleClient []).world = [] ∧
    sourceOnlyRouter.routes.map route.isDefault = [true] ∧
    (∀ rt ∈ sourceOnlyRouter.routes,
      ¬ Satisfied rt { Name := "example.com.", Qtype := 1, Qclass := 1 }
        { SourceIP := [8, 8, 8, 8] }) ∧
    (Router.Resolve stdLib sourceOnlyRouter sampleQuery { SourceIP := [8, 8, 8, 8] } []).err =
      some (Error.NoRoute ";example.com.\tIN\t A") := by
  exact ⟨by decide, by decide, by decide, by decide, by decide, by decide, by decide, by decide⟩

/-! ## Name matching -/

/-- C14: name matching in `Resolve` is an unanchored search on the name of the
first question.  Over the model of the regular expression library, take a
router none of whose rules is satisfied by the first question of a query, and
add a rule with a name pattern and all other fields empty.  If the pattern is
free of special characters, the rule is satisfied by exactly the questions
whose name contains the pattern as a substring, and `Resolve` dispatches the
query to the rule's target when the name of its first question contains the
pattern and finds no route otherwise; so with the pattern "example" the names
"www.example.com." and "example.org." are dispatched.  With the pattern
"^example\\.com\\.$" the rule is satisfied by the name "example.com." and by no
other name: `Resolve` dispatches for that name and finds no route for any
other. -/
theorem name_matching_unanchored {σ : Type} (r : Router σ) (T : Resolver σ)
    (q : Msg) (ci : ClientInfo) (w : σ) (question : Question) (rest : List Question)
    (hq : q.Question = question :: rest)
    (hr : ∀ x ∈ r.routes, ¬ Satisfied x question ci) :
    (∀ pattern : String, (∀ c ∈ pattern.data, c ∉ metaChars) →
      ∃ rt : route σ,
        (Router.Add stdLib r pattern "" "" "" T).1 = none ∧
        (Router.Add stdLib r pattern "" "" "" T).2.routes = r.routes ++ [rt] ∧
        (∀ (question' : Question) (ci' : ClientInfo),
          Satisfied rt question' ci' ↔ pattern.data <:+: question'.Name.data) ∧
        (pattern.data <:+: question.Name.data →
          ((Router.Resolve stdLib (Router.Add stdLib r pattern "" "" "" T).2 q ci w).a,
            (Router.Resolve stdLib (Router.Add stdLib r pattern "" "" "" T).2 q ci w).err) =
            (T.Resolve q ci w).1 ∧
          (Router.Resolve stdLib (Router.Add stdLib r pattern "" "" "" T).2 q ci w).world =
            (T.Resolve q ci w).2 ∧
          (Router.Resolve stdLib (Router.Add stdLib r pattern "" "" "" T).2 q ci w).router.metrics.route
            T.String = r.metrics.route T.String + 1) ∧
        (¬ pattern.data <:+: question.Name.data →
          Router.Resolve stdLib (Router.Add stdLib r pattern "" "" "" T).2 q ci w =
            { a := none, err := some (Error.NoRoute (stdLib.questionString question)),
              router := (Router.Add stdLib r pattern "" "" "" T).2, world := w })) ∧
    (∃ rt : route σ,
      (Router.Add stdLib r "example" "" "" "" T).1 = none ∧
      (Router.Add stdLib r "example" "" "" "" T).2.routes = r.routes ++ [rt] ∧
      (∀ (qtype qclass : Nat) (ci' : ClientInfo),
        Satisfied rt { Name := "www.example.com.", Qtype := qtype, Qclass := qclass } ci' ∧
        Satisfied rt { Name := "example.org.", Qtype := qtype, Qclass := qclass } ci') ∧
      ((question.Name = "www.example.com." ∨ question.Name = "example.org.") →
        ((Router.Resolve stdLib (Router.Add stdLib r "example" "" "" "" T).2 q ci w).a,
          (Router.Resolve stdLib (Router.Add stdLib r "example" "" "" "" T).2 q ci w).err) =
          (T.Resolve q ci w).1 ∧
        (Router.Resolve stdLib (Router.Add stdLib r "example" "" "" "" T).2 q ci w).world =
          (T.Resolve q ci w).2 ∧
        (Router.Resolve stdLib (Router.Add stdLib r "example" "" "" "" T).2 q ci w).router.metrics.route
          T.String = r.metrics.route T.String + 1)) ∧
    (∃ rt : route σ,
      (Router.Add stdLib r "^example\\.com\\.$" "" "" "" T).1 = none ∧
      (Router.Add stdLib r "^example\\.com\\.$" "" "" "" T).2.routes = r.routes ++ [rt] ∧
      (∀ (question' : Question) (ci' : ClientInfo),
        Satisfied rt question' ci' ↔ question'.Name = "example.com.") ∧
      (question.Name = "example.com." →
        ((Router.Resolve stdLib (Router.Add stdLib r "^example\\.com\\.$" "" "" "" T).2 q ci w).a,
          (Router.Resolve stdLib (Router.Add stdLib r "^example\\.com\\.$" "" "" "" T).2 q ci w).err) =
          (T.Resolve q ci w).1 ∧
        (Router.Resolve stdLib (Router.Add stdLib r "^example\\.com\\.$" "" "" "" T).2 q ci w).world =
          (T.Resolve q ci w).2 ∧
        (Router.Resolve stdLib (Router.Add stdLib r "^example\\.com\\.$" "" "" "" T).2 q ci w).router.metrics.route
          T.String = r.metrics.route T.String + 1) ∧
      (question.Name ≠ "example.com." →
        Router.Resolve stdLib (Router.Add stdLib r "^example\\.com\\.$" "" "" "" T).2 q ci w =
          { a := none, err := some (Error.NoRoute (stdLib.questionString question)),
            router := (Router.Add stdLib r "^example\\.com\\.$" "" "" "" T).2, world := w })) := by
  have hlit : ∀ (pattern : String) (hp : ∀ c ∈ pattern.data, c ∉ metaChars),
      (∀ (question' : Question),
        (literalPattern pattern).MatchString question'.Name = true ↔
          pattern.data <:+: question'.Name.data) :=
    fun pattern _ question' => searchFrom_literal pattern.data question'.Name.data true
  have hanch : ∀ (question' : Question),
      anchoredExample.MatchString question'.Name = true ↔ question'.Name = "example.com." := by
    intro question'
    show searchFrom (Atom.beginText :: ("example.com.".data.map Atom.lit ++ [Atom.endText]))
      question'.Name.data true = true ↔ _
    rw [searchFrom_begin_true, matchAt_literal_end]
    constructor
    · intro h
      exact String.ext h
    · intro h
      rw [h]
  have hall : ∀ pattern : String, (∀ c ∈ pattern.data, c ∉ metaChars) →
      ∃ rt : route σ,
        (Router.Add stdLib r pattern "" "" "" T).1 = none ∧
        (Router.Add stdLib r pattern "" "" "" T).2.routes = r.routes ++ [rt] ∧
        (∀ (question' : Question) (ci' : ClientInfo),
          Satisfied rt question' ci' ↔ pattern.data <:+: question'.Name.data) ∧
        (pattern.data <:+: question.Name.data →
          ((Router.Resolve stdLib (Router.Add stdLib r pattern "" "" "" T).2 q ci w).a,
            (Router.Resolve stdLib (Router.Add stdLib r pattern "" "" "" T).2 q ci w).err) =
            (T.Resolve q ci w).1 ∧
          (Router.Resolve stdLib (Router.Add stdLib r pattern "" "" "" T).2 q ci w).world =
            (T.Resolve q ci w).2 ∧
          (Router.Resolve stdLib (Router.Add stdLib r pattern "" "" "" T).2 q ci w).router.metrics.route
            T.String = r.metrics.route T.String + 1) ∧
        (¬ pattern.data <:+: question.Name.data →
          Router.Resolve stdLib (Router.Add stdLib r pattern "" "" "" T).2 q ci w =
            { a := none, err := some (Error.NoRoute (stdLib.questionString question)),
              router := (Router.Add stdLib r pattern "" "" "" T).2, world := w }) := by
    intro pattern hp
    have hre : stdLib.regexpCompile pattern = .ok (literalPattern pattern) :=
      regexpCompile_literal pattern hp
    have hadd := Add_name_only stdLib r T pattern _ hre
    obtain ⟨hyes, hno⟩ := Resolve_after_Add_name_only stdLib r T pattern _ q ci w question rest
      hre hq hr
    refine ⟨_, by rw [hadd], by rw [hadd], ?_, ?_, ?_⟩
    · intro question' ci'
      rw [name_only_satisfied]
      exact hlit pattern hp question'
    · intro h
      exact hyes ((hlit pattern hp question).mpr h)
    · intro h
      exact hno (fun hm => h ((hlit pattern hp question).mp hm))
  refine ⟨hall, ?_, ?_⟩
  · obtain ⟨rt, h1, h2, h3, h4, _⟩ := hall "example" (by decide)
    refine ⟨rt, h1, h2, ?_, ?_⟩
    · intro qtype qclass ci'
      exact ⟨(h3 _ ci').mpr (by decide : "example".data <:+: "www.example.com.".data),
        (h3 _ ci').mpr (by decide : "example".data <:+: "example.org.".data)⟩
    · intro hname
      apply h4
      rcases hname with h | h
      · rw [h]
        decide
      · rw [h]
        decide
  · have hre : stdLib.regexpCompile "^example\\.com\\.$" = .ok anchoredExample := rfl
    have hadd := Add_name_only stdLib r T "^example\\.com\\.$" _ hre
    obtain ⟨hyes, hno⟩ := Resolve_after_Add_name_only stdLib r T "^example\\.com\\.$" _
      q ci w question rest hre hq hr
    refine ⟨_, by rw [hadd], by rw [hadd], ?_, ?_, ?_⟩
    · intro question' ci'
      rw [name_only_satisfied]
      exact hanch question'
    · intro h
      exact hyes ((hanch question).mpr h)
    · intro h
      exact hno (fun hm => h ((hanch question).mp hm))

/-- Witness of C14: on a new router, the rule with pattern "example" gets the
question `example.com.` dispatched, and the rule with pattern
"^example\\.com\\.$" finds no route for the name `www.example.com.`. -/
theorem name_matching_unanchored_witness :
    sampleQuery.Question = { Name := "example.com.", Qtype := 1, Qclass := 1 } :: [] ∧
    wwwQuery.Question = { Name := "www.example.com.", Qtype := 1, Qclass := 1 } :: [] ∧
    (Router.Resolve stdLib
      (Router.Add stdLib (NewRouter zeroRegistry "r") "example" "" "" "" (okTarget "T")).2
      sampleQuery sampleClient []).world = ["T"] ∧
    (Router.Resolve stdLib
      (Router.Add stdLib (NewRouter zeroRegistry "r") "^example\\.com\\.$" "" "" ""
        (okTarget "T")).2
      wwwQuery sampleClient []).err =
      some (Error.NoRoute
        (stdLib.questionString { Name := "www.example.com.", Qtype := 1, Qclass := 1 })) :=
  ⟨rfl, rfl,
    (Exists.choose_spec
      ((name_matching_unanchored (NewRouter zeroRegistry "r") (okTarget "T") sampleQuery
        sampleClient [] { Name := "example.com.", Qtype := 1, Qclass := 1 } [] rfl
        (fun x hx => by cases hx)).1 "example" (by decide))).2.2.2.1
      (by decide : "example".data <:+: "example.com.".data) |>.2.1,
    congrArg Outcome.err
      ((Exists.choose_spec
        (name_matching_unanchored (NewRouter zeroRegistry "r") (okTarget "T") wwwQuery
          sampleClient [] { Name := "www.example.com.", Qtype := 1, Qclass := 1 } [] rfl
          (fun x hx => by cases hx)).2.2).2.2.2.2 (by decide))⟩

/-! ## The end-to-end scenario -/

/-- C15: on a fresh router with `Add("\\.internal\\.$", "", "A", "10.0.0.0/8", R1)`
followed by `Add("", "", "", "", R2)`, a query for `host.internal.` of type A
from 10.1.2.3 is dispatched to R1, the same query from 8.8.8.8 is dispatched to
R2, and a query for `host.internal.` of type AAAA from 10.1.2.3 is dispatched to
R2; after these three calls the route counter of "R1" is 1, that of "R2" is 2,
the available gauge is 2, and the failure counter of "R1" is 1 if R1 returned an
error and 0 otherwise.  The libraries are the model `stdLib`; R1 and R2 are
arbitrary targets with these display names. -/
theorem end_to_end_scenario {σ : Type} (id : String)
    (f1 f2 : Msg → ClientInfo → σ → (Option Msg × Option Error) × σ)
    (qA qAAAA : Msg) (c1 c2 : Nat) (rest1 rest2 : List Question) (w : σ)
    (o1 o2 o3 : Outcome σ)
    (hA : qA.Question = { Name := "host.internal.", Qtype := 1, Qclass := c1 } :: rest1)
    (hAAAA : qAAAA.Question =
      { Name := "host.internal.", Qtype := 28, Qclass := c2 } :: rest2)
    (h1 : o1 = Router.Resolve stdLib
      (scenarioRouter id { Resolve := f1, String := "R1" } { Resolve := f2, String := "R2" })
      qA { SourceIP := [10, 1, 2, 3] } w)
    (h2 : o2 = Router.Resolve stdLib o1.router qA { SourceIP := [8, 8, 8, 8] } o1.world)
    (h3 : o3 = Router.Resolve stdLib o2.router qAAAA { SourceIP := [10, 1, 2, 3] } o2.world) :
    (Router.Add stdLib (NewRouter zeroRegistry id) "\\.internal\\.$" "" "A" "10.0.0.0/8"
      ({ Resolve := f1, String := "R1" } : Resolver σ)).1 = none ∧
    (Router.Add stdLib
      (Router.Add stdLib (NewRouter zeroRegistry id) "\\.internal\\.$" "" "A" "10.0.0.0/8"
        ({ Resolve := f1, String := "R1" } : Resolver σ)).2
      "" "" "" "" { Resolve := f2, String := "R2" }).1 = none ∧
    (o1.a, o1.err) = (f1 qA { SourceIP := [10, 1, 2, 3] } w).1 ∧
    o1.world = (f1 qA { SourceIP := [10, 1, 2, 3] } w).2 ∧
    (o2.a, o2.err) = (f2 qA { SourceIP := [8, 8, 8, 8] } o1.world).1 ∧
    o2.world = (f2 qA { SourceIP := [8, 8, 8, 8] } o1.world).2 ∧
    (o3.a, o3.err) = (f2 qAAAA { SourceIP := [10, 1, 2, 3] } o2.world).1 ∧
    o3.world = (f2 qAAAA { SourceIP := [10, 1, 2, 3] } o2.world).2 ∧
    o3.router.metrics.route "R1" = 1 ∧
    o3.router.metrics.route "R2" = 2 ∧
    o3.router.metrics.available = 2 ∧
    o3.router.metrics.failure "R1" =
      (if ((f1 qA { SourceIP := [10, 1, 2, 3] } w).1.2).isSome then 1 else 0) := by
  have hsatA : Satisfied
      ({ typ := 1, «class» := 0, name := internalRegexp, source := some tenNet,
         resolver := { Resolve := f1, String := "R1" } } : route σ)
      { Name := "host.internal.", Qtype := 1, Qclass := c1 } { SourceIP := [10, 1, 2, 3] } :=
    ⟨Or.inr rfl, Or.inl rfl,
      (by decide : internalRegexp.MatchString "host.internal." = true),
      (by decide : tenNet.Contains [10, 1, 2, 3] = true)⟩
  have hsrc : ¬ Satisfied
      ({ typ := 1, «class» := 0, name := internalRegexp, source := some tenNet,
         resolver := { Resolve := f1, String := "R1" } } : route σ)
      { Name := "host.internal.", Qtype := 1, Qclass := c1 } { SourceIP := [8, 8, 8, 8] } :=
    fun h => absurd h.2.2.2 (by decide : ¬ tenNet.Contains [8, 8, 8, 8] = true)
  have htyp : ¬ Satisfied
      ({ typ := 1, «class» := 0, name := internalRegexp, source := some tenNet,
         resolver := { Resolve := f1, String := "R1" } } : route σ)
      { Name := "host.internal.", Qtype := 28, Qclass := c2 } { SourceIP := [10, 1, 2, 3] } :=
    fun h => h.1.elim (fun e => absurd e (by decide : ¬ (1 : Nat) = 0))
      (fun e => absurd e (by decide : ¬ (1 : Nat) = 28))
  have hwild : ∀ (question : Question) (ci : ClientInfo), Satisfied
      ({ typ := 0, «class» := 0, name := emptyRegexp, source := none,
         resolver := { Resolve := f2, String := "R2" } } : route σ) question ci :=
    fun question ci => wildcard_satisfied _ emptyRegexp (fun s => searchFrom_nil s.data true)
      question ci
  have e1 := Resolve_select stdLib
    (scenarioRouter id { Resolve := f1, String := "R1" } { Resolve := f2, String := "R2" })
    qA { SourceIP := [10, 1, 2, 3] } w _ rest1 [] _ _ hA
    (congrArg Router.routes (scenarioRouter_eq id _ _)) (fun x hx => by cases hx) hsatA
  rw [e1] at h1
  have hr1 : o1.router.routes =
      [({ typ := 1, «class» := 0, name := internalRegexp, source := some tenNet,
           resolver := { Resolve := f1, String := "R1" } } : route σ),
        { typ := 0, «class» := 0, name := emptyRegexp, source := none,
          resolver := { Resolve := f2, String := "R2" } }] := by
    rw [h1, (dispatch_frame _ _ qA _ w).2.1]
    exact congrArg Router.routes (scenarioRouter_eq id _ _)
  have e2 := Resolve_select stdLib o1.router qA { SourceIP := [8, 8, 8, 8] } o1.world _ rest1
    [_] [] _ hA hr1 (fun x hx => by rw [List.mem_singleton.mp hx]; exact hsrc) (hwild _ _)
  rw [e2] at h2
  have hr2 : o2.router.routes =
      [({ typ := 1, «class» := 0, name := internalRegexp, source := some tenNet,
           resolver := { Resolve := f1, String := "R1" } } : route σ),
        { typ := 0, «class» := 0, name := emptyRegexp, source := none,
          resolver := { Resolve := f2, String := "R2" } }] := by
    rw [h2, (dispatch_frame _ _ qA _ o1.world).2.1]
    exact hr1
  have e3 := Resolve_select stdLib o2.router qAAAA { SourceIP := [10, 1, 2, 3] } o2.world _ rest2
    [_] [] _ hAAAA hr2 (fun x hx => by rw [List.mem_singleton.mp hx]; exact htyp) (hwild _ _)
  rw [e3] at h3
  have hroute : o3.router.metrics.route =
      mapAdd (mapAdd (mapAdd (fun _ => 0) "R1" 1) "R2" 1) "R2" 1 := by
    rw [h3, dispatch_route, h2, dispatch_route, h1, dispatch_route]
    rfl
  have hfail : o3.router.metrics.failure "R1" =
      (if ((f1 qA { SourceIP := [10, 1, 2, 3] } w).1.2).isSome then 1 else 0) := by
    rw [h3, dispatch_failure, h2, dispatch_failure, h1, dispatch_failure]
    simp [mapAdd, scenarioRouter_eq]
  have havail : o3.router.metrics.available = 2 := by
    rw [h3, (dispatch_frame _ _ qAAAA _ o2.world).1, h2, (dispatch_frame _ _ qA _ o1.world).1,
      h1, (dispatch_frame _ _ qA _ w).1]
    rfl
  refine ⟨rfl, rfl, ?_, ?_, ?_, ?_, ?_, ?_, ?_, ?_, havail, hfail⟩
  · rw [h1]
    rfl
  · rw [h1]
    rfl
  · rw [h2]
    rfl
  · rw [h2]
    rfl
  · rw [h3]
    rfl
  · rw [h3]
    rfl
  · rw [hroute]
    decide
  · rw [hroute]
    decide

/-- Witness of C15: the scenario with a failing R1 and an answering R2 that
record their calls. -/
theorem end_to_end_scenario_witness :
    (hostQuery 1).Question = { Name := "host.internal.", Qtype := 1, Qclass := 1 } :: [] ∧
    (hostQuery 28).Question = { Name := "host.internal.", Qtype := 28, Qclass := 1 } :: [] ∧
    scenarioOutcome3.world = ["R1", "R2", "R2"] ∧
    scenarioOutcome3.router.metrics.route "R1" = 1 ∧
    scenarioOutcome3.router.metrics.route "R2" = 2 ∧
    scenarioOutcome3.router.metrics.available = 2 ∧
    scenarioOutcome3.router.metrics.failure "R1" = 1 :=
  ⟨rfl, rfl, by decide,
    (end_to_end_scenario "r" (failTarget "R1").Resolve (okTarget "R2").Resolve
      (hostQuery 1) (hostQuery 28) 1 1 [] [] []
      scenarioOutcome1 scenarioOutcome2 scenarioOutcome3 rfl rfl rfl rfl rfl).2.2.2.2.2.2.2.2.1,
    (end_to_end_scenario "r" (failTarget "R1").Resolve (okTarget "R2").Resolve
      (hostQuery 1) (hostQuery 28) 1 1 [] [] []
      scenarioOutcome1 scenarioOutcome2 scenarioOutcome3 rfl rfl rfl rfl
      rfl).2.2.2.2.2.2.2.2.2.1,
    (end_to_end_scenario "r" (failTarget "R1").Resolve (okTarget "R2").Resolve
      (hostQuery 1) (hostQuery 28) 1 1 [] [] []
      scenarioOutcome1 scenarioOutcome2 scenarioOutcome3 rfl rfl rfl rfl
      rfl).2.2.2.2.2.2.2.2.2.2.1,
    (end_to_end_scenario "r" (failTarget "R1").Resolve (okTarget "R2").Resolve
      (hostQuery 1) (hostQuery 28) 1 1 [] [] []
      scenarioOutcome1 scenarioOutcome2 scenarioOutcome3 rfl rfl rfl rfl
      rfl).2.2.2.2.2.2.2.2.2.2.2⟩

/-! ## Validation order of `Add` -/

/-- C16: `Add` validates type, class, name pattern and source in this order and
returns the error of the first field that fails: an unknown type gives the
error "unknown type" whatever the other arguments are; with a valid type, an
unknown class gives the error "unknown class" whatever pattern and source are;
with valid type and class, a pattern that does not compile gives the error of
`regexp.Compile` whatever the source is; and with valid type, class and
pattern, `Add` fails exactly when the source is non-empty and `net.ParseCIDR`
rejects it, with the error of `net.ParseCIDR`. -/
theorem Add_validation_order {σ : Type} (lib : Lib) (r : Router σ)
    (name «class» typ source : String) (resolver : Resolver σ) :
    (∀ e : Error, stringToType lib.TypeToString typ = .error e →
      (Router.Add lib r name «class» typ source resolver).1 = some e ∧
      e = Error.UnknownType typ) ∧
    (∀ (t : Nat) (e : Error), stringToType lib.TypeToString typ = .ok t →
      stringToClass «class» = .error e →
      (Router.Add lib r name «class» typ source resolver).1 = some e ∧
      e = Error.UnknownClass «class») ∧
    (∀ (t c : Nat) (e : Error), stringToType lib.TypeToString typ = .ok t →
      stringToClass «class» = .ok c → lib.regexpCompile name = .error e →
      (Router.Add lib r name «class» typ source resolver).1 = some e) ∧
    (∀ (t c : Nat) (re : Regexp), stringToType lib.TypeToString typ = .ok t →
      stringToClass «class» = .ok c → lib.regexpCompile name = .ok re →
      ∀ e : Error, (Router.Add lib r name «class» typ source resolver).1 = some e ↔
        (source ≠ "" ∧ lib.ParseCIDR source = .error e)) := by
  refine ⟨?_, ?_, ?_, ?_⟩
  · intro e h
    refine ⟨?_, stringToType_error _ _ _ h⟩
    unfold Router.Add
    rw [h]
  · intro t e h1 h2
    refine ⟨?_, stringToClass_error _ _ h2⟩
    unfold Router.Add
    rw [h1, h2]
  · intro t c e h1 h2 h3
    unfold Router.Add
    rw [h1, h2, h3]
  · intro t c re h1 h2 h3 e
    unfold Router.Add
    rw [h1, h2, h3]
    by_cases hs : source = ""
    · simp [hs]
    · cases h4 : lib.ParseCIDR source with
      | error e' => simp [hs, h4]
      | ok n => simp [hs, h4]

/-- Witness of C16: four calls in which every field from the failing one on is
invalid. -/
theorem Add_validation_order_witness :
    (Router.Add stdLib oneRuleRouter "(" "XX" "BOGUS" "nonsense" (okTarget "R2")).1 =
      some (Error.UnknownType "BOGUS") ∧
    (Router.Add stdLib oneRuleRouter "(" "XX" "A" "nonsense" (okTarget "R2")).1 =
      some (Error.UnknownClass "XX") ∧
    (Router.Add stdLib oneRuleRouter "(" "IN" "A" "nonsense" (okTarget "R2")).1 =
      some (Error.other "error parsing regexp: operator outside the sub-language") ∧
    (Router.Add stdLib oneRuleRouter "example" "IN" "A" "nonsense" (okTarget "R2")).1 =
      some (Error.other "invalid CIDR address: nonsense") :=
  ⟨((Add_validation_order stdLib oneRuleRouter "(" "XX" "BOGUS" "nonsense" (okTarget "R2")).1
      (Error.UnknownType "BOGUS") rfl).1,
    ((Add_validation_order stdLib oneRuleRouter "(" "XX" "A" "nonsense" (okTarget "R2")).2.1
      1 (Error.UnknownClass "XX") rfl rfl).1,
    (Add_validation_order stdLib oneRuleRouter "(" "IN" "A" "nonsense" (okTarget "R2")).2.2.1
      1 1 (Error.other "error parsing regexp: operator outside the sub-language") rfl rfl rfl,
    ((Add_validation_order stdLib oneRuleRouter "example" "IN" "A" "nonsense"
      (okTarget "R2")).2.2.2 1 1 _ rfl rfl rfl
      (Error.other "invalid CIDR address: nonsense")).mpr ⟨by decide, rfl⟩⟩

/-! ## What rule selection depends on -/

/-- C17: rule selection depends only on the first question and the client's
source address.  For two queries with the same first question, arbitrary
further questions and other fields, from clients with the same source address
and in arbitrary worlds, either no rule is satisfied and both calls return the
no-route result, or both calls dispatch to the same rule, the first satisfied
one. -/
theorem selection_depends_on_first_question {σ : Type} (lib : Lib) (r : Router σ)
    (q1 q2 : Msg) (ci1 ci2 : ClientInfo) (w1 w2 : σ)
    (question : Question) (rest1 rest2 : List Question)
    (hq1 : q1.Question = question :: rest1)
    (hq2 : q2.Question = question :: rest2)
    (hip : ci1.SourceIP = ci2.SourceIP) :
    ((∀ rt ∈ r.routes, ¬ Satisfied rt question ci1) ∧
      Router.Resolve lib r q1 ci1 w1 =
        { a := none, err := some (Error.NoRoute (lib.questionString question)),
          router := r, world := w1 } ∧
      Router.Resolve lib r q2 ci2 w2 =
        { a := none, err := some (Error.NoRoute (lib.questionString question)),
          router := r, world := w2 }) ∨
    (∃ (i : Nat) (hi : i < r.routes.length),
      Satisfied (r.routes.get ⟨i, hi⟩) question ci1 ∧
      (∀ (j : Nat) (hj : j < r.routes.length), j < i →
        ¬ Satisfied (r.routes.get ⟨j, hj⟩) question ci1) ∧
      Router.Resolve lib r q1 ci1 w1 = Router.dispatch r (r.routes.get ⟨i, hi⟩) q1 ci1 w1 ∧
      Router.Resolve lib r q2 ci2 w2 = Router.dispatch r (r.routes.get ⟨i, hi⟩) q2 ci2 w2) := by
  have hci : ci2 = ci1 := by
    cases ci1
    cases ci2
    simp only at hip
    rw [hip]
  rw [hci, Resolve_of_question lib r q1 ci1 w1 question rest1 hq1,
    Resolve_of_question lib r q2 ci1 w2 question rest2 hq2]
  by_cases h : ∃ rt ∈ r.routes, Satisfied rt question ci1
  · right
    obtain ⟨i, hi, hsat, hmin, hres⟩ :=
      resolveLoop_first_satisfied_all lib r question ci1 r.routes h
    exact ⟨i, hi, hsat, hmin, hres q1 w1, hres q2 w2⟩
  · left
    have hnone : ∀ rt ∈ r.routes, ¬ Satisfied rt question ci1 :=
      fun rt hmem hsat => h ⟨rt, hmem, hsat⟩
    exact ⟨hnone, resolveLoop_of_none_satisfied lib r q1 question ci1 w1 r.routes hnone,
      resolveLoop_of_none_satisfied lib r q2 question ci1 w2 r.routes hnone⟩

/-- Witness of C17: `sampleQuery` and `twoQuestionQuery` on the two-rule
router, in different worlds. -/
theorem selection_depends_on_first_question_witness :
    sampleQuery.Question = { Name := "example.com.", Qtype := 1, Qclass := 1 } :: [] ∧
    twoQuestionQuery.Question =
      { Name := "example.com.", Qtype := 1, Qclass := 1 } ::
        [{ Name := "other.test.", Qtype := 28, Qclass := 3 }] ∧
    sampleClient.SourceIP = sampleClient.SourceIP ∧
    (((∀ rt ∈ twoRuleRouter.routes,
        ¬ Satisfied rt { Name := "example.com.", Qtype := 1, Qclass := 1 } sampleClient) ∧
      Router.Resolve literalLib twoRuleRouter sampleQuery sampleClient [] =
        { a := none,
          err := some (Error.NoRoute
            (literalLib.questionString { Name := "example.com.", Qtype := 1, Qclass := 1 })),
          router := twoRuleRouter, world := [] } ∧
      Router.Resolve literalLib twoRuleRouter twoQuestionQuery sampleClient ["x"] =
        { a := none,
          err := some (Error.NoRoute
            (literalLib.questionString { Name := "example.com.", Qtype := 1, Qclass := 1 })),
          router := twoRuleRouter, world := ["x"] }) ∨
    (∃ (i : Nat) (hi : i < twoRuleRouter.routes.length),
      Satisfied (twoRuleRouter.routes.get ⟨i, hi⟩)
        { Name := "example.com.", Qtype := 1, Qclass := 1 } sampleClient ∧
      (∀ (j : Nat) (hj : j < twoRuleRouter.routes.length), j < i →
        ¬ Satisfied (twoRuleRouter.routes.get ⟨j, hj⟩)
          { Name := "example.com.", Qtype := 1, Qclass := 1 } sampleClient) ∧
      Router.Resolve literalLib twoRuleRouter sampleQuery sampleClient [] =
        Router.dispatch twoRuleRouter (twoRuleRouter.routes.get ⟨i, hi⟩) sampleQuery
          sampleClient [] ∧
      Router.Resolve literalLib twoRuleRouter twoQuestionQuery sampleClient ["x"] =
        Router.dispatch twoRuleRouter (twoRuleRouter.routes.get ⟨i, hi⟩) twoQuestionQuery
          sampleClient ["x"])) :=
  ⟨rfl, rfl, rfl,
    selection_depends_on_first_question literalLib twoRuleRouter sampleQuery twoQuestionQuery
      sampleClient sampleClient [] ["x"] { Name := "example.com.", Qtype := 1, Qclass := 1 }
      [] [{ Name := "other.test.", Qtype := 28, Qclass := 3 }] rfl rfl rfl⟩

/-! ## Labels of rules -/

/-- C18: `route.String` is "default->" followed by the target's name when
`isDefault` holds, and otherwise the source text of the pattern, ":", the text
of the type and "->" followed by the target's name; `isDefault` holds if and
only if the type code is 0 and the source text of the compiled pattern is the
empty string, so a rule of type 0 whose pattern has the source text ".*" is not
default even though it matches every name. -/
theorem route_String_spec {σ : Type} (typeText : Nat → String) (rt : route σ) :
    (rt.isDefault = true →
      route.String typeText rt = "default->" ++ rt.resolver.String) ∧
    (rt.isDefault = false →
      route.String typeText rt =
        rt.name.expr ++ ":" ++ typeText rt.typ ++ "->" ++ rt.resolver.String) ∧
    (rt.isDefault = true ↔ (rt.typ = 0 ∧ rt.name.expr = "")) ∧
    (rt.typ = 0 → rt.name.expr = ".*" → (∀ s : String, rt.name.MatchString s = true) →
      rt.isDefault = false) := by
  refine ⟨?_, ?_, ?_, ?_⟩
  · intro h
    unfold route.String
    rw [if_pos h]
  · intro h
    unfold route.String
    rw [if_neg (by rw [h]; exact Bool.false_ne_true)]
  · unfold route.isDefault
    simp
  · intro _ hexpr _
    unfold route.isDefault
    rw [hexpr]
    simp

/-- Witness of C18: the labels of the two rules of the two-rule router and of a
rule with pattern text ".*". -/
theorem route_String_spec_witness :
    twoRuleRouter.routes.map (route.String (typeString TypeToString)) =
      ["example:A->R1", "default->R2"] ∧
    route.String (typeString TypeToString)
      ({ typ := 0, «class» := 0, name := { expr := ".*", MatchString := fun _ => true },
         source := none, resolver := okTarget "R3" } : route (List String)) =
      ".*:None->R3" ∧
    route.isDefault
      ({ typ := 0, «class» := 0, name := { expr := ".*", MatchString := fun _ => true },
         source := none, resolver := okTarget "R3" } : route (List String)) = false :=
  ⟨by decide,
    (route_String_spec (typeString TypeToString)
      ({ typ := 0, «class» := 0, name := { expr := ".*", MatchString := fun _ => true },
         source := none, resolver := okTarget "R3" } : route (List String))).2.1 rfl,
    (route_String_spec (typeString TypeToString)
      ({ typ := 0, «class» := 0, name := { expr := ".*", MatchString := fun _ => true },
         source := none, resolver := okTarget "R3" } : route (List String))).2.2.2 rfl rfl
      (fun _ => rfl)⟩

/-! ## Route and failure counters -/

/-- C19: in every state reachable from a fresh router, whose route and failure
counters are all zero, by `Add` and `Resolve` calls, the failure counter of
every key is non-negative and at most the route counter of that key; and no
route or failure counter is smaller after a further `Add` or `Resolve` call
than before it. -/
theorem failure_le_route {σ : Type} (lib : Lib) (reg : Registry) (id : String)
    (r : Router σ)
    (hfresh : ∀ n : String,
      getVarMap reg "router" id "route" n = 0 ∧ getVarMap reg "router" id "failure" n = 0)
    (h : Reachable lib reg id r) :
    (∀ n : String, 0 ≤ r.metrics.failure n ∧ r.metrics.failure n ≤ r.metrics.route n) ∧
    (∀ (name «class» typ source : String) (resolver : Resolver σ) (n : String),
      r.metrics.route n ≤
        (Router.Add lib r name «class» typ source resolver).2.metrics.route n ∧
      r.metrics.failure n ≤
        (Router.Add lib r name «class» typ source resolver).2.metrics.failure n) ∧
    (∀ (q : Msg) (ci : ClientInfo) (w : σ) (n : String),
      r.metrics.route n ≤ (Router.Resolve lib r q ci w).router.metrics.route n ∧
      r.metrics.failure n ≤ (Router.Resolve lib r q ci w).router.metrics.failure n) := by
  refine ⟨?_, ?_, ?_⟩
  · induction h with
    | init =>
      intro n
      show 0 ≤ getVarMap reg "router" id "failure" n ∧
        getVarMap reg "router" id "failure" n ≤ getVarMap reg "router" id "route" n
      rw [(hfresh n).1, (hfresh n).2]
      exact ⟨le_refl _, le_refl _⟩
    | @add r' _ name cls typ source resolver ih =>
      intro n
      rw [(Add_counters lib r' name cls typ source resolver).1,
        (Add_counters lib r' name cls typ source resolver).2]
      exact ih n
    | @resolve r' _ q ci w ih =>
      intro n
      obtain ⟨_, hf, hle⟩ := Resolve_counters_step lib r' q ci w n
      exact ⟨le_trans (ih n).1 hf, hle (ih n).2⟩
  · intro name cls typ source resolver n
    rw [(Add_counters lib r name cls typ source resolver).1,
      (Add_counters lib r name cls typ source resolver).2]
    exact ⟨le_refl _, le_refl _⟩
  · intro q ci w n
    obtain ⟨hr, hf, _⟩ := Resolve_counters_step lib r q ci w n
    exact ⟨hr, hf⟩

/-- Witness of C19: the state after two `Add` calls and a `Resolve` call whose
target fails. -/
theorem failure_le_route_witness :
    (∀ n : String,
      getVarMap zeroRegistry "router" "r" "route" n = 0 ∧
      getVarMap zeroRegistry "router" "r" "failure" n = 0) ∧
    Reachable literalLib zeroRegistry "r"
      (Router.Resolve literalLib twoRuleRouter sampleQuery sampleClient []).router ∧
    (Router.Resolve literalLib twoRuleRouter sampleQuery sampleClient []).router.metrics.failure
      "R1" = 1 ∧
    (Router.Resolve literalLib twoRuleRouter sampleQuery sampleClient []).router.metrics.failure
      "R1" ≤
    (Router.Resolve literalLib twoRuleRouter sampleQuery sampleClient []).router.metrics.route
      "R1" :=
  ⟨fun _ => ⟨rfl, rfl⟩,
    Reachable.resolve
      (Reachable.add (Reachable.add Reachable.init "example" "IN" "A" "" (failTarget "R1"))
        "" "" "" "" (okTarget "R2"))
      sampleQuery sampleClient [],
    by decide,
    ((failure_le_route literalLib zeroRegistry "r" _ (fun _ => ⟨rfl, rfl⟩)
      (Reachable.resolve
        (Reachable.add (Reachable.add Reachable.init "example" "IN" "A" "" (failTarget "R1"))
          "" "" "" "" (okTarget "R2"))
        sampleQuery sampleClient [])).1 "R1").2⟩

/-! ## Enumeration order of the type table -/

/-- C20: `stringToType` scans the table in its enumeration order and returns
the first key whose mnemonic is the input, for every table, also one in which a
mnemonic occurs twice; it returns the error "unknown type" when no entry has the
mnemonic.  If the mnemonics of a table are pairwise distinct, the result (the
code or the error) is the same for any two enumeration orders of the table, for
every input; without that proviso the order can show, as on the table with the
entries (1, "A") and (2, "A"). -/
theorem stringToType_order_independent (order1 order2 : List (Nat × String)) :
    (∀ (s : String) (pre post : List (Nat × String)) (k : Nat),
      s ≠ "" → order1 = pre ++ (k, s) :: post → (∀ kv ∈ pre, kv.2 ≠ s) →
      stringToType order1 s = .ok k) ∧
    (∀ s : String, s ≠ "" → (∀ kv ∈ order1, kv.2 ≠ s) →
      stringToType order1 s = .error (Error.UnknownType s)) ∧
    stringToType order1 "" = .ok 0 ∧
    (order1.Perm order2 → (order1.map Prod.snd).Nodup →
      ∀ s : String, stringToType order1 s = stringToType order2 s) ∧
    stringToType [(1, "A"), (2, "A")] "A" = .ok 1 ∧
    stringToType [(2, "A"), (1, "A")] "A" = .ok 2 := by
  refine ⟨?_, ?_, rfl, ?_, rfl, rfl⟩
  · intro s pre post k hs horder hpre
    unfold stringToType
    rw [if_neg hs, horder]
    exact scan_first s pre post k hpre
  · intro s hs hnone
    unfold stringToType
    rw [if_neg hs]
    cases h1 : stringToType.scan s order1 with
    | ok k => exact absurd rfl (hnone (k, s) (scan_ok_mem s order1 k h1))
    | error e => rw [(scan_error s order1 e h1).1]
  · intro hperm hinj s
    have hinj2 : (order2.map Prod.snd).Nodup := (hperm.map Prod.snd).nodup_iff.mp hinj
    unfold stringToType
    by_cases hs : s = ""
    · rw [if_pos hs, if_pos hs]
    · rw [if_neg hs, if_neg hs]
      cases h1 : stringToType.scan s order1 with
      | ok k =>
        exact (scan_of_mem_nodup s order2 k (hperm.mem_iff.mp (scan_ok_mem s order1 k h1))
          hinj2).symm
      | error e =>
        obtain ⟨he, hnot⟩ := scan_error s order1 e h1
        cases h2 : stringToType.scan s order2 with
        | ok k => exact absurd (hperm.mem_iff.mpr (scan_ok_mem s order2 k h2)) (hnot k)
        | error e' => rw [he, (scan_error s order2 e' h2).1]

/-- Witness of C20: on a table in which "A" occurs twice the first entry in
enumeration order wins; the standard table gives the same result forwards and
backwards, on a known and on an unknown mnemonic. -/
theorem stringToType_order_independent_witness :
    stringToType [(7, "X"), (1, "A"), (2, "A")] "A" = .ok 1 ∧
    TypeToString.Perm TypeToString.reverse ∧
    (TypeToString.map Prod.snd).Nodup ∧
    stringToType TypeToString "MX" = stringToType TypeToString.reverse "MX" ∧
    stringToType TypeToString "mx" = stringToType TypeToString.reverse "mx" ∧
    stringToType TypeToString.reverse "MX" = .ok 15 :=
  ⟨(stringToType_order_independent [(7, "X"), (1, "A"), (2, "A")] []).1 "A" [(7, "X")]
      [(2, "A")] 1 (by decide) rfl (by decide),
    (List.reverse_perm TypeToString).symm, by decide,
    (stringToType_order_independent TypeToString TypeToString.reverse).2.2.2.1
      (List.reverse_perm TypeToString).symm (by decide) "MX",
    (stringToType_order_independent TypeToString TypeToString.reverse).2.2.2.1
      (List.reverse_perm TypeToString).symm (by decide) "mx",
    rfl⟩

end rdns
